import Mathlib

/-!
# Telemetry subsystem of the MCP gateway: a shallow embedding

The Go packages `internal/otel` and `internal/broker`, and the map carrier of
`internal/mcp-router`, are embedded as pure Lean functions.  Effects on the telemetry backend and
on process-wide state are made explicit by passing a `World` value; calls
into libraries that are not part of the repository (the OTLP exporters, the
SDK providers, `net/url`, `net/http`) are answered by a `Backend` record of
arbitrary functions and are recorded, in order, in `World.calls`.
-/

namespace Otel

/-! ## Go errors -/

/-- Go `error` values: a plain message (`errors.New`, `fmt.Errorf` without `%w`),
a message wrapping one error (`fmt.Errorf("...: %w", err)`), or the value
built by `errors.Join`. A nil `error` is `none : Option GoError`. -/
inductive GoError where
  | msg (text : String)
  | wrap (text : String) (inner : GoError)
  | join (errs : List GoError)

/-- Go `errors.Join`: nil values are discarded; the result is nil when nothing is
left, and otherwise an error holding the remaining ones in order. -/
def errorsJoin (errs : List (Option GoError)) : Option GoError :=
  match errs.filterMap id with
  | [] => none
  | e :: es => some (GoError.join (e :: es))

/-- The unwrap tree of an error, as walked by `errors.Is`: `Contains e t` when
`t` is `e` itself or is reachable from `e` through `Unwrap`. -/
inductive GoError.Contains : GoError → GoError → Prop where
  | here (e : GoError) : GoError.Contains e e
  | inWrap (text : String) (inner t : GoError) :
      GoError.Contains inner t → GoError.Contains (GoError.wrap text inner) t
  | inJoin (errs : List GoError) (c t : GoError) :
      c ∈ errs → GoError.Contains c t → GoError.Contains (GoError.join errs) t

/-! ## Environment (`k8s.io/utils/env`) -/

/-- The process environment: `os.LookupEnv`. -/
abbrev Env := String → Option String

/-- Go `env.GetString`: the variable when set, the default otherwise. -/
def GetString (env : Env) (key defaultValue : String) : String :=
  match env key with
  | some v => v
  | none => defaultValue

/-- Go `strconv.ParseBool`. -/
def ParseBool (s : String) : Option Bool :=
  if s = "1" ∨ s = "t" ∨ s = "T" ∨ s = "TRUE" ∨ s = "true" ∨ s = "True" then some true
  else if s = "0" ∨ s = "f" ∨ s = "F" ∨ s = "FALSE" ∨ s = "false" ∨ s = "False" then some false
  else none

/-- Go `env.GetBool` with its error result dropped, as `NewConfig` does
(`insecure, _ := env.GetBool(...)`): a value that does not parse gives the default. -/
def GetBool (env : Env) (key : String) (defaultValue : Bool) : Bool :=
  match env key with
  | some v =>
    match ParseBool v with
    | some b => b
    | none => defaultValue
  | none => defaultValue

/-! ## `config.go` -/

/-- The struct `Config`. -/
structure Config where
  Endpoint : String
  Insecure : Bool
  ServiceName : String
  ServiceVersion : String
  GitSHA : String
  GitDirty : String
  deriving DecidableEq, Repr

/-- Go `NewConfig`. -/
def NewConfig (env : Env) (gitSHA dirty version : String) : Config :=
  let endpoint := GetString env "OTEL_EXPORTER_OTLP_ENDPOINT" ""
  let insecure := GetBool env "OTEL_EXPORTER_OTLP_INSECURE" false
  let serviceName := GetString env "OTEL_SERVICE_NAME" "mcp-gateway"
  let serviceVersion := GetString env "OTEL_SERVICE_VERSION" version
  { Endpoint := endpoint
    Insecure := insecure
    ServiceName := serviceName
    ServiceVersion := serviceVersion
    GitSHA := gitSHA
    GitDirty := dirty }

/-- Go `Config.TracesEndpoint`. -/
def Config.TracesEndpoint (c : Config) (env : Env) : String :=
  let endpoint := GetString env "OTEL_EXPORTER_OTLP_TRACES_ENDPOINT" ""
  if endpoint ≠ "" then endpoint else c.Endpoint

/-- Go `Config.MetricsEndpoint`. -/
def Config.MetricsEndpoint (c : Config) (env : Env) : String :=
  let endpoint := GetString env "OTEL_EXPORTER_OTLP_METRICS_ENDPOINT" ""
  if endpoint ≠ "" then endpoint else c.Endpoint

/-- Go `Config.LogsEndpoint`. -/
def Config.LogsEndpoint (c : Config) (env : Env) : String :=
  let endpoint := GetString env "OTEL_EXPORTER_OTLP_LOGS_ENDPOINT" ""
  if endpoint ≠ "" then endpoint else c.Endpoint

/-- Go `Config.TracesEnabled`. -/
def Config.TracesEnabled (c : Config) (env : Env) : Bool :=
  decide (c.TracesEndpoint env ≠ "")

/-- Go `Config.MetricsEnabled`. -/
def Config.MetricsEnabled (c : Config) (env : Env) : Bool :=
  decide (c.MetricsEndpoint env ≠ "")

/-- Go `Config.LogsEnabled`. -/
def Config.LogsEnabled (c : Config) (env : Env) : Bool :=
  decide (c.LogsEndpoint env ≠ "")

/-- Go `Config.Enabled`. -/
def Config.Enabled (c : Config) (env : Env) : Bool :=
  c.TracesEnabled env || c.MetricsEnabled env || c.LogsEnabled env

/-- The value of an environment variable as a Go string: empty when unset. -/
def envValue (env : Env) (key : String) : String :=
  (env key).getD ""

/-! ## Contexts and spans (`context`, `go.opentelemetry.io/otel/trace`) -/

/-- Lower-case hexadecimal text of a byte string (`hex.EncodeToString`). -/
def hexEncode (bytes : List (Fin 256)) : String :=
  String.mk (bytes.flatMap fun b => [Nat.digitChar (b.val / 16), Nat.digitChar (b.val % 16)])

/-- Go `trace.TraceID`, a `[16]byte`. -/
structure TraceID where
  bytes : List (Fin 256)
  size : bytes.length = 16

/-- Go `trace.SpanID`, a `[8]byte`. -/
structure SpanID where
  bytes : List (Fin 256)
  size : bytes.length = 8

/-- Go `TraceID.IsValid`: some byte is not zero. -/
def TraceID.IsValid (t : TraceID) : Bool := t.bytes.any fun b => b.val != 0

/-- Go `SpanID.IsValid`: some byte is not zero. -/
def SpanID.IsValid (s : SpanID) : Bool := s.bytes.any fun b => b.val != 0

/-- Go `TraceID.String`. -/
def TraceID.String (t : TraceID) : String := hexEncode t.bytes

/-- Go `SpanID.String`. -/
def SpanID.String (s : SpanID) : String := hexEncode s.bytes

/-- Go `trace.SpanContext`, reduced to the two identifiers. -/
structure SpanContext where
  traceID : TraceID
  spanID : SpanID

/-- Go `SpanContext.HasTraceID`. -/
def SpanContext.HasTraceID (sc : SpanContext) : Bool := sc.traceID.IsValid

/-- Go `SpanContext.HasSpanID`. -/
def SpanContext.HasSpanID (sc : SpanContext) : Bool := sc.spanID.IsValid

/-- Go `SpanContext.TraceID`. -/
def SpanContext.TraceID (sc : SpanContext) : TraceID := sc.traceID

/-- Go `SpanContext.SpanID`. -/
def SpanContext.SpanID (sc : SpanContext) : SpanID := sc.spanID

/-- What logging reads from a `trace.Span`. -/
structure Span where
  recording : Bool
  spanContext : SpanContext

/-- Go `Span.IsRecording`. -/
def Span.IsRecording (s : Span) : Bool := s.recording

/-- Go `Span.SpanContext`. -/
def Span.SpanContext (s : Span) : SpanContext := s.spanContext

/-- A `context.Context`: an identity (deadline, values) and the span it carries. -/
structure Context where
  id : Nat
  span : Option Span

/-- The span `trace.SpanFromContext` gives for a context without one: it does
not record and its identifiers are all zero. -/
def noopSpan : Span :=
  { recording := false
    spanContext :=
      { traceID := ⟨List.replicate 16 0, by simp⟩
        spanID := ⟨List.replicate 8 0, by simp⟩ } }

/-- Go `trace.SpanFromContext`. -/
def SpanFromContext (ctx : Context) : Span :=
  match ctx.span with
  | some s => s
  | none => noopSpan

/-! ## The telemetry backend and the process-wide state -/

/-- The value returned by `NewResource`. -/
structure Resource where
  id : Nat
  deriving DecidableEq, Repr

/-- An `sdkmetric.Exporter`, as its constructor built it: an identity, and
whether its transport runs without transport security. -/
structure Exporter where
  id : Nat
  insecure : Bool
  deriving DecidableEq, Repr

/-- The options `newMetricExporter` passes to `otlpmetricgrpc.New`. -/
inductive GrpcOption where
  | WithEndpoint (endpoint : String)
  | WithInsecure
  deriving DecidableEq, Repr

/-- The options `newMetricExporter` passes to `otlpmetrichttp.New`. -/
inductive HttpOption where
  | WithEndpoint (endpoint : String)
  | WithURLPath (urlPath : String)
  | WithInsecure
  deriving DecidableEq, Repr

/-- An `sdkmetric.MeterProvider`, as `NewMetricsProvider` builds it: a resource and
a periodic reader over an exporter with an interval in seconds. -/
structure MeterProviderSDK where
  resource : Resource
  exporter : Exporter
  intervalSeconds : Nat
  deriving DecidableEq, Repr

/-- The struct `MetricsProvider`; the pointer field may be nil. -/
structure MetricsProvider where
  meterProvider : Option MeterProviderSDK
  deriving DecidableEq, Repr

/-- The trace provider returned by `NewProvider`. -/
structure Provider where
  id : Nat
  deriving DecidableEq, Repr

/-- The logs provider returned by `NewLogsProvider`. -/
structure LogsProvider where
  id : Nat
  deriving DecidableEq, Repr

/-- An `sdktrace.TracerProvider`. -/
structure TracerProviderSDK where
  id : Nat
  deriving DecidableEq, Repr

/-- An `sdklog.LoggerProvider`. -/
structure LoggerProviderSDK where
  id : Nat
  deriving DecidableEq, Repr

/-- The fields of a parsed `url.URL` that the exporter factory reads. -/
structure URL where
  Scheme : String
  Host : String
  Path : String
  deriving DecidableEq, Repr

/-- A `propagation.TextMapPropagator`. -/
inductive TextMapPropagator where
  | TraceContext
  | Baggage
  | composite (propagators : List TextMapPropagator)

/-- The calls that reach the telemetry backend. -/
inductive Call where
  | NewResource (config : Config)
  | NewProvider (config : Config)
  | NewLogsProvider (config : Config)
  | otlpmetricgrpcNew (opts : List GrpcOption)
  | otlpmetrichttpNew (opts : List HttpOption)
  | ProviderShutdown (p : Provider)
  | MeterProviderShutdown (mp : MeterProviderSDK)
  | LogsProviderShutdown (lp : LogsProvider)
  deriving DecidableEq, Repr

/-- One `logger.Info(msg, "endpoint", value)` line. -/
structure InfoLine where
  message : String
  endpoint : String
  deriving DecidableEq, Repr

/-- The process-wide state the package writes: the backend calls made so far,
the globals of package `otel` (propagator, tracer provider, meter provider), the
global logger provider of package `otel/log/global`, and the lines given to the
logger. -/
structure World where
  calls : List Call
  propagator : Option TextMapPropagator
  tracerProvider : Option TracerProviderSDK
  meterProvider : Option MeterProviderSDK
  loggerProvider : Option LoggerProviderSDK
  logged : List InfoLine

/-- The answers of everything outside the source files at hand: the standard
library, the OTLP exporters and SDK providers, and the constructors
`NewResource`, `NewProvider` and `NewLogsProvider` with their methods. -/
structure Backend where
  urlParse : String → Except GoError URL
  NewResource : Context → Config → Except GoError Resource
  NewProvider : Env → Context → Config → Except GoError Provider
  NewLogsProvider : Env → Context → Config → Except GoError LogsProvider
  otlpmetricgrpcNew : Context → List GrpcOption → Except GoError Exporter
  otlpmetrichttpNew : Context → List HttpOption → Except GoError Exporter
  TracerProvider : Provider → TracerProviderSDK
  LoggerProvider : LogsProvider → LoggerProviderSDK
  ProviderShutdown : Provider → Context → Option GoError
  MeterProviderShutdown : MeterProviderSDK → Context → Option GoError
  LogsProviderShutdown : LogsProvider → Context → Option GoError

/-- Record a backend call. -/
def World.call (w : World) (c : Call) : World :=
  { w with calls := w.calls ++ [c] }

/-- A Go `func(context.Context) error` acting on a state. -/
abbrev ShutdownFn (σ : Type) := Context → σ → Option GoError × σ

/-- The call `NewResource(ctx, config)`. -/
def NewResource (B : Backend) (ctx : Context) (config : Config) (w : World) :
    Except GoError Resource × World :=
  (B.NewResource ctx config, w.call (Call.NewResource config))

/-- The call `NewProvider(ctx, config)`. -/
def NewProvider (B : Backend) (env : Env) (ctx : Context) (config : Config) (w : World) :
    Except GoError Provider × World :=
  (B.NewProvider env ctx config, w.call (Call.NewProvider config))

/-- The call `NewLogsProvider(ctx, config)`. -/
def NewLogsProvider (B : Backend) (env : Env) (ctx : Context) (config : Config) (w : World) :
    Except GoError LogsProvider × World :=
  (B.NewLogsProvider env ctx config, w.call (Call.NewLogsProvider config))

/-- The call `otlpmetricgrpc.New(ctx, opts...)`. -/
def otlpmetricgrpcNew (B : Backend) (ctx : Context) (opts : List GrpcOption) (w : World) :
    Except GoError Exporter × World :=
  (B.otlpmetricgrpcNew ctx opts, w.call (Call.otlpmetricgrpcNew opts))

/-- The call `otlpmetrichttp.New(ctx, opts...)`. -/
def otlpmetrichttpNew (B : Backend) (ctx : Context) (opts : List HttpOption) (w : World) :
    Except GoError Exporter × World :=
  (B.otlpmetrichttpNew ctx opts, w.call (Call.otlpmetrichttpNew opts))

/-- The method value `traceProvider.Shutdown`. -/
def Provider.Shutdown (B : Backend) (p : Provider) : ShutdownFn World :=
  fun ctx w => (B.ProviderShutdown p ctx, w.call (Call.ProviderShutdown p))

/-- The method value `logsProvider.Shutdown`. -/
def LogsProvider.Shutdown (B : Backend) (p : LogsProvider) : ShutdownFn World :=
  fun ctx w => (B.LogsProviderShutdown p ctx, w.call (Call.LogsProviderShutdown p))

/-- The call `meterProvider.Shutdown(ctx)` of the SDK. -/
def MeterProviderSDK.Shutdown (B : Backend) (mp : MeterProviderSDK) : ShutdownFn World :=
  fun ctx w => (B.MeterProviderShutdown mp ctx, w.call (Call.MeterProviderShutdown mp))

/-- Go `otel.SetTextMapPropagator`. -/
def SetTextMapPropagator (p : TextMapPropagator) (w : World) : World :=
  { w with propagator := some p }

/-- Go `otel.SetTracerProvider`. -/
def SetTracerProvider (tp : TracerProviderSDK) (w : World) : World :=
  { w with tracerProvider := some tp }

/-- Go `otel.SetMeterProvider`, given the pointer held by a `MetricsProvider`. -/
def SetMeterProvider (mp : Option MeterProviderSDK) (w : World) : World :=
  { w with meterProvider := mp }

/-- Go `logger.Info(msg, "endpoint", endpoint)`. -/
def loggerInfo (message endpoint : String) (w : World) : World :=
  { w with logged := w.logged ++ [{ message := message, endpoint := endpoint }] }

/-- Go `propagation.NewCompositeTextMapPropagator`. -/
def NewCompositeTextMapPropagator (ps : List TextMapPropagator) : TextMapPropagator :=
  TextMapPropagator.composite ps

/-! ## `metrics.go` -/

/-- The metric exporter factory `newMetricExporter`. -/
def newMetricExporter (B : Backend) (ctx : Context) (endpoint : String) (insecure : Bool)
    (w : World) : Except GoError Exporter × World :=
  match B.urlParse endpoint with
  | Except.error err => (Except.error (GoError.wrap "invalid endpoint URL: " err), w)
  | Except.ok u =>
    if u.Scheme = "rpc" then
      let opts := [GrpcOption.WithEndpoint u.Host]
      let opts := if insecure then opts ++ [GrpcOption.WithInsecure] else opts
      otlpmetricgrpcNew B ctx opts w
    else if u.Scheme = "http" ∨ u.Scheme = "https" then
      let opts := [HttpOption.WithEndpoint u.Host]
      let opts := if u.Path ≠ "" then opts ++ [HttpOption.WithURLPath u.Path] else opts
      let opts := if insecure ∨ u.Scheme = "http" then opts ++ [HttpOption.WithInsecure] else opts
      otlpmetrichttpNew B ctx opts w
    else
      (Except.error (GoError.msg
        ("unsupported endpoint scheme: " ++ u.Scheme ++ " (use 'rpc', 'http', or 'https')")), w)

/-- Go `sdkmetric.NewMeterProvider(WithResource(res), WithReader(NewPeriodicReader(exporter,
WithInterval(interval))))`. -/
def sdkmetricNewMeterProvider (res : Resource) (exporter : Exporter) (intervalSeconds : Nat) :
    MeterProviderSDK :=
  { resource := res, exporter := exporter, intervalSeconds := intervalSeconds }

/-- Go `NewMetricsProvider`. -/
def NewMetricsProvider (B : Backend) (env : Env) (ctx : Context) (config : Config) (w : World) :
    Except GoError MetricsProvider × World :=
  let endpoint := config.MetricsEndpoint env
  if endpoint = "" then
    (Except.error (GoError.msg "metrics disabled: no endpoint configured"), w)
  else
    match NewResource B ctx config w with
    | (Except.error err, w) => (Except.error (GoError.wrap "failed to create resource: " err), w)
    | (Except.ok res, w) =>
      match newMetricExporter B ctx endpoint config.Insecure w with
      | (Except.error err, w) =>
        (Except.error (GoError.wrap "failed to create OTLP metric exporter: " err), w)
      | (Except.ok exporter, w) =>
        let meterProvider := sdkmetricNewMeterProvider res exporter 10
        (Except.ok { meterProvider := some meterProvider }, w)

/-- Go `MetricsProvider.MeterProvider`. -/
def MetricsProvider.MeterProvider (p : MetricsProvider) : Option MeterProviderSDK :=
  p.meterProvider

/-- Go `MetricsProvider.Shutdown`. -/
def MetricsProvider.Shutdown (B : Backend) (p : MetricsProvider) : ShutdownFn World :=
  fun ctx w =>
    match p.meterProvider with
    | none => (none, w)
    | some meterProvider => MeterProviderSDK.Shutdown B meterProvider ctx w

/-! ## `otel.go` -/

/-- The closure `shutdown` of `SetupOTelSDK`, over the functions held by
`shutdownFuncs` when it runs:
`var err error; for _, fn := range shutdownFuncs { err = errors.Join(err, fn(ctx)) }; return err`. -/
def shutdown {σ : Type} (shutdownFuncs : List (ShutdownFn σ)) : ShutdownFn σ :=
  fun ctx s =>
    shutdownFuncs.foldl
      (fun (acc : Option GoError × σ) fn =>
        let r := fn ctx acc.2
        (errorsJoin [acc.1, r.1], r.2))
      (none, s)

/-- The three results of `SetupOTelSDK`; each may be nil. -/
structure SetupResult where
  shutdown : Option (ShutdownFn World)
  loggerProvider : Option LoggerProviderSDK
  err : Option GoError

/-- Go `SetupOTelSDK` from the block "set up logger provider for logs if enabled" on. -/
def SetupOTelSDK.logs (B : Backend) (env : Env) (ctx : Context) (config : Config)
    (shutdownFuncs : List (ShutdownFn World)) (w : World) : SetupResult × World :=
  if config.LogsEnabled env then
    match NewLogsProvider B env ctx config w with
    | (Except.error err, w) =>
      ({ shutdown := some (shutdown shutdownFuncs), loggerProvider := none, err := some err }, w)
    | (Except.ok logsProvider, w) =>
      let shutdownFuncs := shutdownFuncs ++ [LogsProvider.Shutdown B logsProvider]
      let loggerProvider := B.LoggerProvider logsProvider
      let w := loggerInfo "OpenTelemetry logs enabled" (config.LogsEndpoint env) w
      ({ shutdown := some (shutdown shutdownFuncs), loggerProvider := some loggerProvider,
         err := none }, w)
  else
    ({ shutdown := some (shutdown shutdownFuncs), loggerProvider := none, err := none }, w)

/-- Go `SetupOTelSDK` from the block "set up meter provider for metrics if enabled" on. -/
def SetupOTelSDK.metrics (B : Backend) (env : Env) (ctx : Context) (config : Config)
    (shutdownFuncs : List (ShutdownFn World)) (w : World) : SetupResult × World :=
  if config.MetricsEnabled env then
    match NewMetricsProvider B env ctx config w with
    | (Except.error err, w) =>
      ({ shutdown := some (shutdown shutdownFuncs), loggerProvider := none, err := some err }, w)
    | (Except.ok metricsProvider, w) =>
      let shutdownFuncs := shutdownFuncs ++ [MetricsProvider.Shutdown B metricsProvider]
      let w := SetMeterProvider metricsProvider.MeterProvider w
      let w := loggerInfo "OpenTelemetry metrics enabled" (config.MetricsEndpoint env) w
      SetupOTelSDK.logs B env ctx config shutdownFuncs w
  else
    SetupOTelSDK.logs B env ctx config shutdownFuncs w

/-- Go `SetupOTelSDK` from the block "set up trace provider if enabled" on. -/
def SetupOTelSDK.traces (B : Backend) (env : Env) (ctx : Context) (config : Config)
    (shutdownFuncs : List (ShutdownFn World)) (w : World) : SetupResult × World :=
  if config.TracesEnabled env then
    match NewProvider B env ctx config w with
    | (Except.error err, w) =>
      ({ shutdown := some (shutdown shutdownFuncs), loggerProvider := none, err := some err }, w)
    | (Except.ok traceProvider, w) =>
      let shutdownFuncs := shutdownFuncs ++ [Provider.Shutdown B traceProvider]
      let w := SetTracerProvider (B.TracerProvider traceProvider) w
      let w := loggerInfo "OpenTelemetry tracing enabled" (config.TracesEndpoint env) w
      SetupOTelSDK.metrics B env ctx config shutdownFuncs w
  else
    SetupOTelSDK.metrics B env ctx config shutdownFuncs w

/-- Go `SetupOTelSDK`. -/
def SetupOTelSDK (B : Backend) (env : Env) (ctx : Context) (gitSHA dirty version : String)
    (w : World) : SetupResult × World :=
  let shutdownFuncs : List (ShutdownFn World) := []
  let config := NewConfig env gitSHA dirty version
  let w := SetTextMapPropagator
    (NewCompositeTextMapPropagator [TextMapPropagator.TraceContext, TextMapPropagator.Baggage]) w
  SetupOTelSDK.traces B env ctx config shutdownFuncs w

/-- The values each function of a list returns to the loop of `shutdown`, in
order, each function running on the state left by the ones before it. -/
def returned {σ : Type} (ctx : Context) : List (ShutdownFn σ) → σ → List (Option GoError)
  | [], _ => []
  | fn :: rest, s => (fn ctx s).1 :: returned ctx rest (fn ctx s).2

/-- A shutdown function that, besides running `fn`, writes the number `i` to a
journal kept next to the state: one entry per invocation. -/
def journalled {σ : Type} (i : Nat) (fn : ShutdownFn σ) : ShutdownFn (σ × List Nat) :=
  fun ctx s => ((fn ctx s.1).1, ((fn ctx s.1).2, s.2 ++ [i]))

/-- The functions of a list, each journalling its own position from `i` on. -/
def journalledFrom {σ : Type} : Nat → List (ShutdownFn σ) → List (ShutdownFn (σ × List Nat))
  | _, [] => []
  | i, fn :: rest => journalled i fn :: journalledFrom (i + 1) rest

/-! ## `logging.go` -/

/-- An `slog.Value`. -/
inductive Value where
  | KindString (s : String)
  | KindInt64 (i : Int)
  | KindBool (b : Bool)
  | KindGroup (members : List (String × Value))

/-- An `slog.Attr`. -/
structure Attr where
  Key : String
  Value : Value

/-- Go `Value.isEmptyGroup`. -/
def Value.isEmptyGroup : Value → Bool
  | Value.KindGroup [] => true
  | _ => false

/-- Go `slog.String`. -/
def slogString (key value : String) : Attr :=
  { Key := key, Value := Value.KindString value }

/-- An `slog.Record`: its fields and its attributes, in order. -/
structure Record where
  Time : Nat
  Message : String
  Level : Int
  PC : Nat
  attrs : List Attr

/-- The attribute `Record.AddAttrs` inserts when it finds the slot past the end of
the overflow slice `back` already written. -/
def bugAttr : Attr :=
  slogString "!BUG" "AddAttrs unsafely called on copy of Record made without using Record.Clone"

/-- An `slog.Record` value as `AddAttrs` meets it: the record, whose first five
attributes lie in the inline array `front` and whose other attributes lie in the
slice `back`, and the slots `back[len(back):cap(back)]` of the array behind
`back`, `none` for a slot that holds the zero `Attr`. A copy made by assignment
or by passing the record by value shares these slots with the original; a copy
made by `Clone` has none. -/
structure RecordValue where
  record : Record
  spare : List (Option Attr)

/-- What one or more calls of `AddAttrs` on a copy leave: the copy, the attributes
written into slots the copy had when it was made, in order from the first slot,
and whether `back` has moved to an array of its own since. -/
structure Added where
  value : RecordValue
  inPlace : List Attr
  moved : Bool

/-- The first loop of `AddAttrs`, `for i = 0; i < len(attrs) && r.nFront < len(r.front); i++`,
with `room` free places in `front`: empty groups are skipped, the other
attributes go to `front`; the result is what was placed and `attrs[i:]`. -/
def fillFront : Nat → List Attr → List Attr × List Attr
  | 0, attrs => ([], attrs)
  | _ + 1, [] => ([], [])
  | room + 1, a :: rest =>
    if a.Value.isEmptyGroup then fillFront (room + 1) rest
    else ((a :: (fillFront room rest).1), (fillFront room rest).2)

/-- Go `Record.AddAttrs`. After the loop over `front`: when `back` has capacity left
and the slot past its end is written, `back` is clipped and `!BUG` appended,
which moves it to a new array; then `slices.Grow` makes room for the attributes
left that are not empty groups, in place when the capacity suffices and in a
new array otherwise, and they are appended. A new array has `grow n` unwritten
slots past its `n` elements. -/
def RecordValue.AddAttrs (grow : Nat → Nat) (v : RecordValue) (attrs : List Attr) : Added :=
  let filled := fillFront (5 - v.record.attrs.length) attrs
  let toBack := filled.2.filter fun a => !a.Value.isEmptyGroup
  match v.spare with
  | some _ :: _ =>
    let all := v.record.attrs ++ filled.1 ++ bugAttr :: toBack
    { value :=
        { record := { v.record with attrs := all }
          spare := List.replicate (grow (all.length - 5)) none }
      inPlace := []
      moved := true }
  | _ =>
    let all := v.record.attrs ++ filled.1 ++ toBack
    if toBack.length ≤ v.spare.length then
      { value :=
          { record := { v.record with attrs := all }
            spare := v.spare.drop toBack.length }
        inPlace := toBack
        moved := false }
    else
      { value :=
          { record := { v.record with attrs := all }
            spare := List.replicate (grow (all.length - 5)) none }
        inPlace := []
        moved := true }

/-- A further `AddAttrs` on a copy: what it writes in place reaches the slots the
copy started with only while `back` has not moved. -/
def Added.AddAttrs (grow : Nat → Nat) (a : Added) (attrs : List Attr) : Added :=
  let b := a.value.AddAttrs grow attrs
  { value := b.value
    inPlace := if a.moved then a.inPlace else a.inPlace ++ b.inPlace
    moved := a.moved || b.moved }

/-- Go `Record.Clone`: a record with the same fields that shares no state. -/
def Record.Clone (r : Record) : Record :=
  { Time := r.Time, Message := r.Message, Level := r.Level, PC := r.PC, attrs := r.attrs }

/-- An `slog.Handler` acting on a state: its methods `Enabled` and `Handle`. -/
structure Handler (σ : Type) where
  Enabled : Context → Int → Bool
  Handle : Context → Record → σ → Option GoError × σ

/-- The struct `TracingHandler`. -/
structure TracingHandler (σ : Type) where
  handler : Handler σ

/-- Go `NewTracingHandler`. -/
def NewTracingHandler {σ : Type} (handler : Handler σ) : TracingHandler σ :=
  { handler := handler }

/-- Go `TracingHandler.Enabled`. -/
def TracingHandler.Enabled {σ : Type} (h : TracingHandler σ) (ctx : Context) (level : Int) : Bool :=
  h.handler.Enabled ctx level

/-- What a call of `TracingHandler.Handle` leaves: what the wrapped handler
returned with the state it left, and the record value of the caller, whose
contents are as before and whose slots hold what `Handle` wrote into them
through its copy. -/
structure Handled (σ : Type) where
  result : Option GoError × σ
  argument : RecordValue

/-- Go `TracingHandler.Handle`. The parameter `record` is a copy of the caller's
record made by passing it by value, not by `Clone`. -/
def TracingHandler.Handle {σ : Type} (grow : Nat → Nat) (h : TracingHandler σ) (ctx : Context)
    (record : RecordValue) (s : σ) : Handled σ :=
  let span := SpanFromContext ctx
  let copy : Added := { value := record, inPlace := [], moved := false }
  let copy :=
    if span.IsRecording then
      let spanCtx := span.SpanContext
      let copy :=
        if spanCtx.HasTraceID then
          copy.AddAttrs grow [slogString "trace_id" spanCtx.TraceID.String]
        else copy
      let copy :=
        if spanCtx.HasSpanID then
          copy.AddAttrs grow [slogString "span_id" spanCtx.SpanID.String]
        else copy
      copy
    else copy
  { result := h.handler.Handle ctx copy.value.record s
    argument :=
      { record := record.record
        spare := copy.inPlace.map some ++ record.spare.drop copy.inPlace.length } }

/-- The struct `MultiHandler`. -/
structure MultiHandler (σ : Type) where
  handlers : List (Handler σ)

/-- Go `NewMultiHandler`. -/
def NewMultiHandler {σ : Type} (handlers : List (Handler σ)) : MultiHandler σ :=
  { handlers := handlers }

/-- Go `MultiHandler.Enabled`. -/
def MultiHandler.Enabled {σ : Type} (m : MultiHandler σ) (ctx : Context) (level : Int) : Bool :=
  m.handlers.any fun h => h.Enabled ctx level

/-- Go `MultiHandler.Handle`. -/
def MultiHandler.Handle {σ : Type} (m : MultiHandler σ) (ctx : Context) (r : Record) :
    σ → Option GoError × σ :=
  fun s =>
    let s := m.handlers.foldl (fun s h => (h.Handle ctx r.Clone s).2) s
    (none, s)

/-- A handler that, besides running `h`, writes its number `i` and the record it
was given to a journal kept next to the state: one entry per delivery. -/
def Handler.journalled {σ : Type} (i : Nat) (h : Handler σ) : Handler (σ × List (Nat × Record)) :=
  { Enabled := h.Enabled
    Handle := fun ctx r s => ((h.Handle ctx r s.1).1, ((h.Handle ctx r s.1).2, s.2 ++ [(i, r)])) }

/-- The handlers of a list, each journalling its own position from `i` on. -/
def Handler.journalledFrom {σ : Type} :
    Nat → List (Handler σ) → List (Handler (σ × List (Nat × Record)))
  | _, [] => []
  | i, h :: rest => Handler.journalled i h :: Handler.journalledFrom (i + 1) rest

/-- A sink whose `Handle` always returns the error `e` and keeps nothing. -/
def failingSink (e : GoError) : Handler (List Record) :=
  { Enabled := fun _ _ => true
    Handle := fun _ _ s => (some e, s) }

/-- A sink whose `Handle` always succeeds and keeps the records it is given. -/
def succeedingSink : Handler (List Record) :=
  { Enabled := fun _ _ => true
    Handle := fun _ r s => (none, s ++ [r]) }

end Otel

/-! ## `internal/broker/tracing.go` -/

namespace Broker

/-- The status codes of package `codes`. -/
inductive Code where
  | Unset
  | Error
  | Ok
  deriving DecidableEq, Repr

/-- The value of an `attribute.KeyValue`. -/
inductive AttrValue where
  | StringValue (s : String)
  | IntValue (i : Int)
  | BoolValue (b : Bool)
  deriving DecidableEq, Repr

/-- The span kinds the middleware uses. -/
inductive SpanKind where
  | Internal
  | Server
  deriving DecidableEq, Repr

/-- The calls the middleware makes on its tracer and span, in order. -/
inductive SpanOp where
  | Start (name : String) (kind : SpanKind) (attrs : List (String × AttrValue))
  | SetAttributes (attrs : List (String × AttrValue))
  | SetStatus (code : Code) (description : String)
  | End
  deriving DecidableEq, Repr

/-- The calls a handler makes on its `http.ResponseWriter`. -/
inductive WriterCall where
  | WriteHeader (code : Int)
  | Write (data : String)
  deriving DecidableEq, Repr

/-- What the middleware reads from an `http.Request`. -/
structure Request where
  Method : String
  Path : String
  Host : String
  Header : String → String

/-- The struct `statusResponseWriter`: the embedded writer, here the calls that
reached it, and the captured status code. -/
structure statusResponseWriter where
  ResponseWriter : List WriterCall
  statusCode : Int
  deriving DecidableEq, Repr

/-- Go `statusResponseWriter.WriteHeader`. -/
def statusResponseWriter.WriteHeader (w : statusResponseWriter) (code : Int) :
    statusResponseWriter :=
  { statusCode := code
    ResponseWriter := w.ResponseWriter ++ [WriterCall.WriteHeader code] }

/-- Go `Write`, promoted from the embedded `http.ResponseWriter`. -/
def statusResponseWriter.Write (w : statusResponseWriter) (data : String) :
    statusResponseWriter :=
  { w with ResponseWriter := w.ResponseWriter ++ [WriterCall.Write data] }

/-- One call of the handler, made on the wrapped writer. -/
def statusResponseWriter.apply (w : statusResponseWriter) : WriterCall → statusResponseWriter
  | WriterCall.WriteHeader code => w.WriteHeader code
  | WriterCall.Write data => w.Write data

/-- An `http.Handler`, by what it does for a request: the calls it makes on its
writer, and whether it then returns or ends in a panic. -/
structure HttpHandler where
  calls : Request → List WriterCall
  panics : Request → Bool

/-- Go `next.ServeHTTP(wrapped, r)`: the writer after the handler's calls. -/
def HttpHandler.ServeHTTP (h : HttpHandler) (w : statusResponseWriter) (r : Request) :
    statusResponseWriter :=
  (h.calls r).foldl statusResponseWriter.apply w

/-- What one request through the middleware leaves behind. -/
structure Served where
  span : List SpanOp
  writer : List WriterCall
  panicked : Bool
  deriving DecidableEq, Repr

/-- Go `TracingMiddleware(next)`, applied to a writer `w` and a request `r`; `StatusText`
is `http.StatusText`. The deferred `span.End()` runs on both exits. -/
def TracingMiddleware (StatusText : Int → String) (next : HttpHandler)
    (w : List WriterCall) (r : Request) : Served :=
  let span := [SpanOp.Start "mcp-broker.http" SpanKind.Server
    [("http.method", AttrValue.StringValue r.Method),
     ("http.path", AttrValue.StringValue r.Path),
     ("http.host", AttrValue.StringValue r.Host)]]
  let sessionID := r.Header "mcp-session-id"
  let span :=
    if sessionID ≠ "" then
      span ++ [SpanOp.SetAttributes [("mcp.session_id", AttrValue.StringValue sessionID)]]
    else span
  let wrapped : statusResponseWriter := { ResponseWriter := w, statusCode := 200 }
  let wrapped := next.ServeHTTP wrapped r
  if next.panics r then
    { span := span ++ [SpanOp.End], writer := wrapped.ResponseWriter, panicked := true }
  else
    let span := span ++ [SpanOp.SetAttributes [("http.status_code", AttrValue.IntValue wrapped.statusCode)]]
    let span :=
      if wrapped.statusCode ≥ 400 then
        span ++ [SpanOp.SetStatus Code.Error (StatusText wrapped.statusCode)]
      else span
    { span := span ++ [SpanOp.End], writer := wrapped.ResponseWriter, panicked := false }

/-- The code of the last `WriteHeader` among the calls of a handler, `200` when
there is none. -/
def lastStatus (calls : List WriterCall) : Int :=
  ((calls.filterMap fun c =>
    match c with
    | WriterCall.WriteHeader code => some code
    | WriterCall.Write _ => none).getLast?).getD 200

end Broker

/-! ## `internal/mcp-router/tracing.go`: the map carrier -/

namespace McpRouter

/-- The type `mapCarrier`, a Go `map[string]string`: nil (`none`), or a made map
holding one entry per key. -/
abbrev mapCarrier := Option (AList fun _ : String => String)

/-- Go `make(mapCarrier)`: a map with no entry. -/
def mapCarrier.make : mapCarrier := some ∅

/-- The comma-ok lookup `_, ok := c[key]`: whether the key is present. -/
def mapCarrier.present (c : mapCarrier) (key : String) : Bool :=
  match c with
  | none => false
  | some m => (m.lookup key).isSome

/-- Go `mapCarrier.Get`: `return c[key]`, the zero value `""` for a key without
entry. -/
def mapCarrier.Get (c : mapCarrier) (key : String) : String :=
  match c with
  | none => ""
  | some m => (m.lookup key).getD ""

/-- Go `mapCarrier.Set`: `c[key] = value`. The map after the assignment; `none` is
the panic of an assignment to an entry of a nil map. -/
def mapCarrier.Set (c : mapCarrier) (key value : String) : Option mapCarrier :=
  match c with
  | none => none
  | some m => some (some (m.insert key value))

/-- Go `mapCarrier.Keys`: `for k := range c { keys = append(keys, k) }`. The loop
visits every entry once; Go leaves the order open, here it is the order of the
entries. -/
def mapCarrier.Keys (c : mapCarrier) : List String :=
  match c with
  | none => []
  | some m => m.entries.foldl (fun keys entry => keys ++ [entry.1]) []

/-- The carrier after `Set("traceparent", ...)` on a made map. -/
def sampleCarrier : mapCarrier :=
  some ((∅ : AList fun _ : String => String).insert "traceparent"
    "00-0af7651916cd43dd8448eb211c80319c-b7ad6b7169203331-01")

end McpRouter

/-! ## Vocabulary for the statements about `SetupOTelSDK` -/

namespace Otel

/-- The three signals, in the order in which `SetupOTelSDK` sets them up. -/
inductive Signal where
  | traces
  | metrics
  | logs
  deriving DecidableEq, Repr

/-- The place of a signal in that order. -/
def Signal.position : Signal → Nat
  | Signal.traces => 0
  | Signal.metrics => 1
  | Signal.logs => 2

/-- Whether a signal is enabled. -/
def Signal.enabled (config : Config) (env : Env) : Signal → Bool
  | Signal.traces => config.TracesEnabled env
  | Signal.metrics => config.MetricsEnabled env
  | Signal.logs => config.LogsEnabled env

/-- What the constructor of a signal's provider returns, the provider given by the
`Shutdown` method `SetupOTelSDK` would register for it. -/
def Signal.construct (B : Backend) (env : Env) (ctx : Context) (config : Config) (w : World) :
    Signal → Except GoError (ShutdownFn World)
  | Signal.traces =>
    match B.NewProvider env ctx config with
    | Except.ok p => Except.ok (Provider.Shutdown B p)
    | Except.error e => Except.error e
  | Signal.metrics =>
    match (NewMetricsProvider B env ctx config w).1 with
    | Except.ok p => Except.ok (MetricsProvider.Shutdown B p)
    | Except.error e => Except.error e
  | Signal.logs =>
    match B.NewLogsProvider env ctx config with
    | Except.ok p => Except.ok (LogsProvider.Shutdown B p)
    | Except.error e => Except.error e

/-- The `Shutdown` methods of the providers constructed successfully for the
enabled signals that come before `sig`, in order. -/
def Signal.constructedBefore (B : Backend) (env : Env) (ctx : Context) (config : Config)
    (w : World) (sig : Signal) : List (ShutdownFn World) :=
  ([Signal.traces, Signal.metrics, Signal.logs].filter fun s =>
      decide (s.position < sig.position) && s.enabled config env).filterMap fun s =>
    match s.construct B env ctx config w with
    | Except.ok f => some f
    | Except.error _ => none

/-- Whether a backend call is part of constructing the provider of a signal. -/
def Signal.constructs : Signal → Call → Bool
  | Signal.traces, Call.NewProvider _ => true
  | Signal.metrics, Call.NewResource _ => true
  | Signal.metrics, Call.otlpmetricgrpcNew _ => true
  | Signal.metrics, Call.otlpmetrichttpNew _ => true
  | Signal.logs, Call.NewLogsProvider _ => true
  | _, _ => false

/-- Whether a backend call is a constructor call of any signal. -/
def Call.isConstruction (c : Call) : Bool :=
  Signal.constructs Signal.traces c || Signal.constructs Signal.metrics c ||
    Signal.constructs Signal.logs c

/-- The environment variables read by the package. -/
def telemetryVariables : List String :=
  ["OTEL_EXPORTER_OTLP_ENDPOINT",
   "OTEL_EXPORTER_OTLP_TRACES_ENDPOINT",
   "OTEL_EXPORTER_OTLP_METRICS_ENDPOINT",
   "OTEL_EXPORTER_OTLP_LOGS_ENDPOINT",
   "OTEL_EXPORTER_OTLP_INSECURE",
   "OTEL_SERVICE_NAME",
   "OTEL_SERVICE_VERSION"]

end Otel

/-! ## Fixtures used to evaluate the definitions on concrete inputs -/

namespace Otel

/-- The environment of a process started with no variables. -/
def emptyEnv : Env := fun _ => none

/-- An initial process state: nothing called, nothing installed, nothing logged. -/
def World.initial : World :=
  { calls := [], propagator := none, tracerProvider := none, meterProvider := none,
    loggerProvider := none, logged := [] }

/-- A background context: no span. -/
def background : Context := { id := 0, span := none }

/-- A backend for the endpoints of the package tests: the three URLs parse as
`net/url` parses them, every constructor succeeds, every shutdown returns nil.
The exporter constructors behave as in a process whose environment holds no
exporter setting: the transport is insecure exactly when `WithInsecure` is among
the options. -/
def sampleBackend : Backend :=
  { urlParse := fun endpoint =>
      if endpoint = "http://localhost:4318" then
        Except.ok { Scheme := "http", Host := "localhost:4318", Path := "" }
      else if endpoint = "rpc://localhost:4317" then
        Except.ok { Scheme := "rpc", Host := "localhost:4317", Path := "" }
      else if endpoint = "ftp://invalid:4318" then
        Except.ok { Scheme := "ftp", Host := "invalid:4318", Path := "" }
      else Except.error (GoError.msg "parse error")
    NewResource := fun _ _ => Except.ok { id := 1 }
    NewProvider := fun _ _ _ => Except.ok { id := 2 }
    NewLogsProvider := fun _ _ _ => Except.ok { id := 3 }
    otlpmetricgrpcNew := fun _ opts =>
      Except.ok { id := 4, insecure := decide (GrpcOption.WithInsecure ∈ opts) }
    otlpmetrichttpNew := fun _ opts =>
      Except.ok { id := 5, insecure := decide (HttpOption.WithInsecure ∈ opts) }
    TracerProvider := fun p => { id := p.id }
    LoggerProvider := fun p => { id := p.id }
    ProviderShutdown := fun _ _ => none
    MeterProviderShutdown := fun _ _ => none
    LogsProviderShutdown := fun _ _ => none }

/-- The same backend in a process whose environment sets
`OTEL_EXPORTER_OTLP_INSECURE=true`: the exporter constructors read that variable
themselves, so the transport of every exporter they build is insecure, whatever
the options hold. -/
def envInsecureBackend : Backend :=
  { sampleBackend with
    otlpmetricgrpcNew := fun _ _ => Except.ok { id := 4, insecure := true }
    otlpmetrichttpNew := fun _ _ => Except.ok { id := 5, insecure := true } }

/-- An environment that enables traces over HTTP and gives metrics the endpoint
of `TestNewMetricsProvider_InvalidEndpointScheme`. -/
def ftpMetricsEnv : Env := fun key =>
  if key = "OTEL_EXPORTER_OTLP_TRACES_ENDPOINT" then some "http://localhost:4318"
  else if key = "OTEL_EXPORTER_OTLP_METRICS_ENDPOINT" then some "ftp://invalid:4318"
  else none

/-- The error `NewMetricsProvider` returns for the endpoint `ftp://invalid:4318`. -/
def ftpSchemeError : GoError :=
  GoError.wrap "failed to create OTLP metric exporter: "
    (GoError.msg "unsupported endpoint scheme: ftp (use 'rpc', 'http', or 'https')")

/-- The trace id of the `traceparent` header of `TestSetupOTelSDK_PropagatorSet`,
`0af7651916cd43dd8448eb211c80319c`. -/
def sampleTraceID : TraceID :=
  { bytes := [0x0a, 0xf7, 0x65, 0x19, 0x16, 0xcd, 0x43, 0xdd,
              0x84, 0x48, 0xeb, 0x21, 0x1c, 0x80, 0x31, 0x9c]
    size := rfl }

/-- The span id of that header, `b7ad6b7169203331`. -/
def sampleSpanID : SpanID :=
  { bytes := [0xb7, 0xad, 0x6b, 0x71, 0x69, 0x20, 0x33, 0x31]
    size := rfl }

/-- A recording span with those identifiers. -/
def sampleSpan : Span :=
  { recording := true, spanContext := { traceID := sampleTraceID, spanID := sampleSpanID } }

/-- A context carrying that span. -/
def spanContextOf : Context := { id := 1, span := some sampleSpan }

/-- A record with eight attributes: five in `front`, three in `back`. -/
def eightAttrRecord : Record :=
  { Time := 0, Message := "tool call", Level := 0, PC := 0,
    attrs := [slogString "a1" "1", slogString "a2" "2", slogString "a3" "3",
              slogString "a4" "4", slogString "a5" "5", slogString "a6" "6",
              slogString "a7" "7", slogString "a8" "8"] }

/-- That record as a value whose slice `back` has length 3 and capacity 4, the
slot past the end unwritten: what adding the eight attributes one call at a
time leaves. -/
def eightAttrValue : RecordValue :=
  { record := eightAttrRecord, spare := [none] }

/-- The attribute `trace_id` of `sampleSpan`. -/
def sampleTraceAttr : Attr := slogString "trace_id" "0af7651916cd43dd8448eb211c80319c"

/-- The attribute `span_id` of `sampleSpan`. -/
def sampleSpanAttr : Attr := slogString "span_id" "b7ad6b7169203331"

/-- A record with one attribute. -/
def sampleRecord : Record :=
  { Time := 0, Message := "request handled", Level := 0, PC := 0,
    attrs := [slogString "tool" "echo"] }

/-- The environment of `TestSetupOTelSDK_MetricsEnabled`. -/
def metricsOnlyEnv : Env := fun key =>
  if key = "OTEL_EXPORTER_OTLP_METRICS_ENDPOINT" then some "http://localhost:4318"
  else if key = "OTEL_EXPORTER_OTLP_INSECURE" then some "true"
  else none

/-- The environment of `TestSetupOTelSDK_LogsEnabled`. -/
def logsOnlyEnv : Env := fun key =>
  if key = "OTEL_EXPORTER_OTLP_LOGS_ENDPOINT" then some "http://localhost:4318"
  else if key = "OTEL_EXPORTER_OTLP_INSECURE" then some "true"
  else none

/-- The metrics provider `NewMetricsProvider` builds from `sampleBackend` for an
HTTP endpoint. -/
def sampleMetricsProvider : MetricsProvider :=
  { meterProvider := some { resource := { id := 1 }, exporter := { id := 5, insecure := true },
                             intervalSeconds := 10 } }

/-- The configuration of `TestNewMetricsProvider_NoEndpoint`. -/
def testConfig : Config :=
  { Endpoint := "", Insecure := false, ServiceName := "test-service",
    ServiceVersion := "v1.0.0", GitSHA := "", GitDirty := "" }

end Otel

namespace Broker

/-- A request without a session header. -/
def sampleRequest : Request :=
  { Method := "POST", Path := "/mcp", Host := "gateway.local", Header := fun _ => "" }

/-- A handler that writes the status 404 and a body. -/
def notFoundHandler : HttpHandler :=
  { calls := fun _ => [WriterCall.WriteHeader 404, WriterCall.Write "no such tool"]
    panics := fun _ => false }

/-- A handler that writes a body and never sets a status. -/
def silentHandler : HttpHandler :=
  { calls := fun _ => [WriterCall.Write "ok"]
    panics := fun _ => false }

/-- The entries of `http.StatusText` used by the examples. -/
def sampleStatusText (code : Int) : String :=
  if code = 200 then "OK" else if code = 404 then "Not Found" else ""

end Broker

/-! # Theorems -/

namespace Otel

/-! ## Signal configuration -/

/-- C1: for every environment and every `Config`, each of `TracesEndpoint`,
`MetricsEndpoint` and `LogsEndpoint` returns the value of its override variable
when that value is non-empty and the base `Endpoint` otherwise, and each of
`TracesEnabled`, `MetricsEnabled` and `LogsEnabled` is true exactly when that
effective endpoint is non-empty. -/
theorem effective_endpoint_override_else_base (env : Env) (c : Config) :
    (c.TracesEndpoint env =
        if envValue env "OTEL_EXPORTER_OTLP_TRACES_ENDPOINT" ≠ ""
        then envValue env "OTEL_EXPORTER_OTLP_TRACES_ENDPOINT" else c.Endpoint) ∧
    (c.MetricsEndpoint env =
        if envValue env "OTEL_EXPORTER_OTLP_METRICS_ENDPOINT" ≠ ""
        then envValue env "OTEL_EXPORTER_OTLP_METRICS_ENDPOINT" else c.Endpoint) ∧
    (c.LogsEndpoint env =
        if envValue env "OTEL_EXPORTER_OTLP_LOGS_ENDPOINT" ≠ ""
        then envValue env "OTEL_EXPORTER_OTLP_LOGS_ENDPOINT" else c.Endpoint) ∧
    (c.TracesEnabled env = true ↔ c.TracesEndpoint env ≠ "") ∧
    (c.MetricsEnabled env = true ↔ c.MetricsEndpoint env ≠ "") ∧
    (c.LogsEnabled env = true ↔ c.LogsEndpoint env ≠ "") := by
  refine ⟨?_, ?_, ?_, ?_, ?_, ?_⟩
  · unfold Config.TracesEndpoint GetString envValue
    cases env "OTEL_EXPORTER_OTLP_TRACES_ENDPOINT" <;> simp
  · unfold Config.MetricsEndpoint GetString envValue
    cases env "OTEL_EXPORTER_OTLP_METRICS_ENDPOINT" <;> simp
  · unfold Config.LogsEndpoint GetString envValue
    cases env "OTEL_EXPORTER_OTLP_LOGS_ENDPOINT" <;> simp
  · simp [Config.TracesEnabled]
  · simp [Config.MetricsEnabled]
  · simp [Config.LogsEnabled]

/-! ## Exporter factory -/

/-- C2, amended: when the endpoint parses as the URL `u`, `newMetricExporter`
dispatches on `u.Scheme` alone. For `rpc` its result is what the RPC exporter
constructor returns for the options `WithEndpoint(u.Host)`, followed by
`WithInsecure` iff `insecure`, and that one constructor call is what it adds to
the process state; for `http` and `https` its result is what the HTTP exporter
constructor returns for `WithEndpoint(u.Host)`, followed by `WithURLPath(u.Path)`
iff the path is non-empty, followed by `WithInsecure` iff `insecure` or the
scheme is `http`, again with that one call added; for every other scheme it makes
no backend call and returns an error whose message holds the scheme and the
three accepted values `'rpc'`, `'http'`, `'https'`. -/
theorem newMetricExporter_dispatches_on_scheme (B : Backend) (ctx : Context)
    (endpoint : String) (insecure : Bool) (w : World) (u : URL)
    (hparse : B.urlParse endpoint = Except.ok u) :
    (u.Scheme = "rpc" →
      ∃ opts,
        opts = GrpcOption.WithEndpoint u.Host ::
          (if insecure = true then [GrpcOption.WithInsecure] else []) ∧
        (newMetricExporter B ctx endpoint insecure w).1 = B.otlpmetricgrpcNew ctx opts ∧
        (newMetricExporter B ctx endpoint insecure w).2 =
          { w with calls := w.calls ++ [Call.otlpmetricgrpcNew opts] } ∧
        (∀ h, GrpcOption.WithEndpoint h ∈ opts ↔ h = u.Host) ∧
        (GrpcOption.WithInsecure ∈ opts ↔ insecure = true)) ∧
    (u.Scheme = "http" ∨ u.Scheme = "https" →
      ∃ opts,
        opts = HttpOption.WithEndpoint u.Host ::
          ((if u.Path ≠ "" then [HttpOption.WithURLPath u.Path] else []) ++
           (if insecure = true ∨ u.Scheme = "http" then [HttpOption.WithInsecure] else [])) ∧
        (newMetricExporter B ctx endpoint insecure w).1 = B.otlpmetrichttpNew ctx opts ∧
        (newMetricExporter B ctx endpoint insecure w).2 =
          { w with calls := w.calls ++ [Call.otlpmetrichttpNew opts] } ∧
        (∀ h, HttpOption.WithEndpoint h ∈ opts ↔ h = u.Host) ∧
        (∀ p, HttpOption.WithURLPath p ∈ opts ↔ p = u.Path ∧ u.Path ≠ "") ∧
        (HttpOption.WithInsecure ∈ opts ↔ insecure = true ∨ u.Scheme = "http")) ∧
    (u.Scheme ≠ "rpc" → u.Scheme ≠ "http" → u.Scheme ≠ "https" →
      ∃ text, newMetricExporter B ctx endpoint insecure w = (Except.error (GoError.msg text), w) ∧
        text = "unsupported endpoint scheme: " ++ u.Scheme ++ " (use 'rpc', 'http', or 'https')" ∧
        u.Scheme.data <:+: text.data ∧ "'rpc'".data <:+: text.data ∧
        "'http'".data <:+: text.data ∧ "'https'".data <:+: text.data) := by
  refine ⟨?_, ?_, ?_⟩
  · intro hs
    refine ⟨_, rfl, ?_, ?_, ?_, ?_⟩
    · unfold newMetricExporter
      rw [hparse]
      cases insecure <;> simp [hs, otlpmetricgrpcNew]
    · unfold newMetricExporter
      rw [hparse]
      cases insecure <;> simp [hs, otlpmetricgrpcNew, World.call]
    · intro h
      cases insecure <;> simp [eq_comm]
    · cases insecure <;> simp
  · intro hs
    have hne : u.Scheme ≠ "rpc" := by
      rcases hs with hs | hs <;> rw [hs] <;> decide
    refine ⟨_, rfl, ?_, ?_, ?_, ?_, ?_⟩
    · unfold newMetricExporter
      rw [hparse]
      simp only [hne, hs, if_true, if_false]
      by_cases hp : u.Path = "" <;> by_cases hi : (insecure = true ∨ u.Scheme = "http") <;>
        simp [hp, hi, otlpmetrichttpNew]
    · unfold newMetricExporter
      rw [hparse]
      simp only [hne, hs, if_true, if_false]
      by_cases hp : u.Path = "" <;> by_cases hi : (insecure = true ∨ u.Scheme = "http") <;>
        simp [hp, hi, otlpmetrichttpNew, World.call]
    · intro h
      by_cases hp : u.Path = "" <;> by_cases hi : (insecure = true ∨ u.Scheme = "http") <;>
        simp [hp, hi, eq_comm]
    · intro p
      by_cases hp : u.Path = "" <;> by_cases hi : (insecure = true ∨ u.Scheme = "http") <;>
        simp [hp, hi]
    · by_cases hp : u.Path = "" <;> by_cases hi : (insecure = true ∨ u.Scheme = "http") <;>
        simp [hp, hi]
  · intro h1 h2 h3
    refine ⟨_, ?_, rfl, ?_, ?_, ?_, ?_⟩
    · unfold newMetricExporter
      rw [hparse]
      simp [h1, h2, h3]
    · exact ⟨"unsupported endpoint scheme: ".data, " (use 'rpc', 'http', or 'https')".data, by
        simp [String.data_append]⟩
    · exact ⟨("unsupported endpoint scheme: " ++ u.Scheme).data ++ " (use ".data,
        ", 'http', or 'https')".data, by simp [String.data_append]⟩
    · exact ⟨("unsupported endpoint scheme: " ++ u.Scheme).data ++ " (use 'rpc', ".data,
        ", or 'https')".data, by simp [String.data_append]⟩
    · exact ⟨("unsupported endpoint scheme: " ++ u.Scheme).data ++ " (use 'rpc', 'http', or ".data,
        ")".data, by simp [String.data_append]⟩

/-- C2, amended, at the endpoint `http://localhost:4318` of
`TestNewMetricsProvider_ValidHTTPEndpoint` and at `ftp://invalid:4318` of
`TestNewMetricsProvider_InvalidEndpointScheme`: the first gives the HTTP exporter
built from the host and `WithInsecure`, with that one call recorded; the second
gives the scheme error and no call. -/
theorem newMetricExporter_dispatches_on_scheme_witness :
    sampleBackend.urlParse "http://localhost:4318" =
        Except.ok { Scheme := "http", Host := "localhost:4318", Path := "" } ∧
    (newMetricExporter sampleBackend background "http://localhost:4318" true World.initial).1 =
      sampleBackend.otlpmetrichttpNew background
        [HttpOption.WithEndpoint "localhost:4318", HttpOption.WithInsecure] ∧
    (newMetricExporter sampleBackend background "http://localhost:4318" true World.initial).2.calls =
      [Call.otlpmetrichttpNew [HttpOption.WithEndpoint "localhost:4318", HttpOption.WithInsecure]] ∧
    (∃ text, newMetricExporter sampleBackend background "ftp://invalid:4318" false World.initial =
        (Except.error (GoError.msg text), World.initial) ∧
      text = "unsupported endpoint scheme: ftp (use 'rpc', 'http', or 'https')") := by
  have hparse : sampleBackend.urlParse "http://localhost:4318" =
      Except.ok { Scheme := "http", Host := "localhost:4318", Path := "" } := by
    simp [sampleBackend]
  obtain ⟨opts, hopts, hres, hworld, _⟩ :=
    (newMetricExporter_dispatches_on_scheme sampleBackend background "http://localhost:4318" true
      World.initial { Scheme := "http", Host := "localhost:4318", Path := "" } hparse).2.1
      (Or.inl rfl)
  have hlist : opts = [HttpOption.WithEndpoint "localhost:4318", HttpOption.WithInsecure] := by
    rw [hopts]
    simp
  subst hlist
  refine ⟨hparse, hres, ?_, ?_⟩
  · rw [hworld]
    rfl
  · obtain ⟨text, h1, h2, _⟩ :=
      (newMetricExporter_dispatches_on_scheme sampleBackend background "ftp://invalid:4318" false
        World.initial { Scheme := "ftp", Host := "invalid:4318", Path := "" }
        (by simp [sampleBackend])).2.2 (by decide) (by decide) (by decide)
    exact ⟨text, h1, by rw [h2]; decide⟩

/-- C2 as stated fails: it says the RPC exporter is built with transport security
disabled iff `insecure` is true. In a process whose environment sets
`OTEL_EXPORTER_OTLP_INSECURE=true`, `newMetricExporter` called for
`rpc://localhost:4317` with `insecure` false passes no `WithInsecure` option, and
the exporter it returns runs without transport security all the same. -/
theorem newMetricExporter_insecure_without_flag :
    envInsecureBackend.urlParse "rpc://localhost:4317" =
      Except.ok { Scheme := "rpc", Host := "localhost:4317", Path := "" } ∧
    (newMetricExporter envInsecureBackend background "rpc://localhost:4317" false
      World.initial).2.calls =
        [Call.otlpmetricgrpcNew [GrpcOption.WithEndpoint "localhost:4317"]] ∧
    (∃ exporter, (newMetricExporter envInsecureBackend background "rpc://localhost:4317" false
        World.initial).1 = Except.ok exporter ∧
      ¬ (exporter.insecure = true ↔ false = true)) := by
  have hparse : envInsecureBackend.urlParse "rpc://localhost:4317" =
      Except.ok { Scheme := "rpc", Host := "localhost:4317", Path := "" } := by
    simp [envInsecureBackend, sampleBackend]
  refine ⟨hparse, ?_, ⟨{ id := 4, insecure := true }, ?_, by simp⟩⟩
  · unfold newMetricExporter
    rw [hparse]
    rfl
  · unfold newMetricExporter
    rw [hparse]
    rfl

/-! ## Metrics provider -/

/-- C9: when the effective metrics endpoint is empty, `NewMetricsProvider` returns
an error and no provider, and leaves the process state as it was: no resource
and no exporter is created. -/
theorem NewMetricsProvider_no_endpoint (B : Backend) (env : Env) (ctx : Context)
    (config : Config) (w : World) (h : config.MetricsEndpoint env = "") :
    NewMetricsProvider B env ctx config w =
        (Except.error (GoError.msg "metrics disabled: no endpoint configured"), w) ∧
    (∀ p, (NewMetricsProvider B env ctx config w).1 ≠ Except.ok p) ∧
    (NewMetricsProvider B env ctx config w).2.calls = w.calls := by
  have hres : NewMetricsProvider B env ctx config w =
      (Except.error (GoError.msg "metrics disabled: no endpoint configured"), w) := by
    unfold NewMetricsProvider
    simp [h]
  refine ⟨hres, ?_, ?_⟩
  · intro p hp
    rw [hres] at hp
    cases hp
  · rw [hres]

/-- C9 at the configuration and the cleared environment of
`TestNewMetricsProvider_NoEndpoint`. -/
theorem NewMetricsProvider_no_endpoint_witness :
    testConfig.MetricsEndpoint emptyEnv = "" ∧
    NewMetricsProvider sampleBackend emptyEnv background testConfig World.initial =
      (Except.error (GoError.msg "metrics disabled: no endpoint configured"), World.initial) :=
  ⟨by decide,
   (NewMetricsProvider_no_endpoint sampleBackend emptyEnv background testConfig World.initial
      (by decide)).1⟩

/-- C10: `MetricsProvider.Shutdown` on a provider whose `meterProvider` is nil
returns nil and makes no backend call, for every context; on a provider holding a
meter provider it is that meter provider's `Shutdown` for the same context: one
backend shutdown call, whose result is returned. -/
theorem MetricsProvider_Shutdown_nil_safe (B : Backend) (ctx : Context) (w : World) :
    MetricsProvider.Shutdown B { meterProvider := none } ctx w = (none, w) ∧
    (∀ mp : MeterProviderSDK,
      MetricsProvider.Shutdown B { meterProvider := some mp } ctx w =
          MeterProviderSDK.Shutdown B mp ctx w ∧
      (MetricsProvider.Shutdown B { meterProvider := some mp } ctx w).1 =
          B.MeterProviderShutdown mp ctx ∧
      (MetricsProvider.Shutdown B { meterProvider := some mp } ctx w).2.calls =
          w.calls ++ [Call.MeterProviderShutdown mp]) := by
  refine ⟨rfl, ?_⟩
  intro mp
  exact ⟨rfl, rfl, rfl⟩

/-! ## Composed shutdown -/

/-- The body of the loop of `shutdown`. -/
theorem errorsJoin_pair (a b : Option GoError) :
    errorsJoin [a, b] =
      match a, b with
      | none, none => none
      | some x, none => some (GoError.join [x])
      | none, some y => some (GoError.join [y])
      | some x, some y => some (GoError.join [x, y]) := by
  cases a <;> cases b <;> rfl

/-- Unfolding `shutdown` on a non-empty list. -/
theorem shutdown_loop_cons {σ : Type} (ctx : Context) (fn : ShutdownFn σ)
    (rest : List (ShutdownFn σ)) (acc : Option GoError) (s : σ) :
    (fn :: rest).foldl
        (fun (acc : Option GoError × σ) fn => (errorsJoin [acc.1, (fn ctx acc.2).1], (fn ctx acc.2).2))
        (acc, s) =
      rest.foldl
        (fun (acc : Option GoError × σ) fn => (errorsJoin [acc.1, (fn ctx acc.2).1], (fn ctx acc.2).2))
        (errorsJoin [acc, (fn ctx s).1], (fn ctx s).2) := rfl

/-- The state after the loop is the state after running the functions in order. -/
theorem shutdown_loop_state {σ : Type} (ctx : Context) (fns : List (ShutdownFn σ)) :
    ∀ (acc : Option GoError) (s : σ),
      (fns.foldl
        (fun (acc : Option GoError × σ) fn => (errorsJoin [acc.1, (fn ctx acc.2).1], (fn ctx acc.2).2))
        (acc, s)).2 = fns.foldl (fun s fn => (fn ctx s).2) s := by
  induction fns with
  | nil => intro acc s; rfl
  | cons fn rest ih =>
    intro acc s
    rw [shutdown_loop_cons, ih]
    rfl

/-- The loop ends with a nil error exactly when it started with one and every
function returned nil. -/
theorem shutdown_loop_none {σ : Type} (ctx : Context) (fns : List (ShutdownFn σ)) :
    ∀ (acc : Option GoError) (s : σ),
      (fns.foldl
        (fun (acc : Option GoError × σ) fn => (errorsJoin [acc.1, (fn ctx acc.2).1], (fn ctx acc.2).2))
        (acc, s)).1 = none ↔ (acc = none ∧ ∀ r ∈ returned ctx fns s, r = none) := by
  induction fns with
  | nil => intro acc s; simp [returned]
  | cons fn rest ih =>
    intro acc s
    rw [shutdown_loop_cons, ih, errorsJoin_pair]
    cases acc <;> cases h : (fn ctx s).1 <;> simp [returned, h]

/-- An error held by the accumulator, or returned by a function still to run, is
contained in the error the loop ends with. -/
theorem shutdown_loop_contains {σ : Type} (ctx : Context) (fns : List (ShutdownFn σ)) (e : GoError) :
    ∀ (acc : Option GoError) (s : σ),
      ((∃ a, acc = some a ∧ a.Contains e) ∨ some e ∈ returned ctx fns s) →
      ∃ j, (fns.foldl
        (fun (acc : Option GoError × σ) fn => (errorsJoin [acc.1, (fn ctx acc.2).1], (fn ctx acc.2).2))
        (acc, s)).1 = some j ∧ j.Contains e := by
  induction fns with
  | nil =>
    intro acc s h
    rcases h with ⟨a, ha, hc⟩ | h
    · exact ⟨a, ha, hc⟩
    · simp [returned] at h
  | cons fn rest ih =>
    intro acc s h
    rw [shutdown_loop_cons]
    apply ih
    rw [errorsJoin_pair]
    rcases h with ⟨a, ha, hc⟩ | h
    · left
      subst ha
      cases (fn ctx s).1 with
      | none => exact ⟨_, rfl, GoError.Contains.inJoin _ a e (by simp) hc⟩
      | some y => exact ⟨_, rfl, GoError.Contains.inJoin _ a e (by simp) hc⟩
    · simp only [returned, List.mem_cons] at h
      rcases h with h | h
      · left
        rw [← h]
        cases acc with
        | none => exact ⟨_, rfl, GoError.Contains.inJoin _ e e (by simp) (GoError.Contains.here e)⟩
        | some x => exact ⟨_, rfl, GoError.Contains.inJoin _ e e (by simp) (GoError.Contains.here e)⟩
      · right
        exact h

/-- The journal after the loop over journalled functions: one entry per function,
in order. -/
theorem shutdown_loop_journal {σ : Type} (ctx : Context) (fns : List (ShutdownFn σ)) :
    ∀ (i : Nat) (acc : Option GoError) (s : σ) (log : List Nat),
      ((journalledFrom i fns).foldl
        (fun (acc : Option GoError × (σ × List Nat)) fn =>
          (errorsJoin [acc.1, (fn ctx acc.2).1], (fn ctx acc.2).2))
        (acc, (s, log))).2.2 = log ++ List.range' i fns.length := by
  induction fns with
  | nil => intro i acc s log; simp [journalledFrom]
  | cons fn rest ih =>
    intro i acc s log
    simp only [journalledFrom]
    rw [shutdown_loop_cons]
    simp only [journalled]
    rw [ih]
    simp [List.range'_succ]

/-- C3: one invocation of the composed `shutdown` over any list of registered
functions, the empty list included, runs every function once, in order, whatever
the functions return: the state it leaves is the one left by running them one
after the other, and when each function journals its position the journal is
`0, 1, ..., n-1`. It returns nil exactly when every function returned nil, and
every non-nil error a function returned is contained in the error it returns. -/
theorem shutdown_calls_every_function_once {σ : Type} (fns : List (ShutdownFn σ))
    (ctx : Context) (s : σ) :
    (shutdown fns ctx s).2 = fns.foldl (fun s fn => (fn ctx s).2) s ∧
    (shutdown (journalledFrom 0 fns) ctx (s, [])).2.2 = List.range fns.length ∧
    ((shutdown fns ctx s).1 = none ↔ ∀ r ∈ returned ctx fns s, r = none) ∧
    (∀ e, some e ∈ returned ctx fns s →
      ∃ j, (shutdown fns ctx s).1 = some j ∧ j.Contains e) ∧
    shutdown ([] : List (ShutdownFn σ)) ctx s = (none, s) := by
  refine ⟨?_, ?_, ?_, ?_, rfl⟩
  · exact shutdown_loop_state ctx fns none s
  · have h := shutdown_loop_journal ctx fns 0 none s []
    simp only [List.nil_append] at h
    rw [List.range_eq_range']
    exact h
  · have h := shutdown_loop_none ctx fns none s
    simpa using h
  · intro e he
    exact shutdown_loop_contains ctx fns e none s (Or.inr he)

/-! ## Orchestrator -/

/-- The exporter factory changes the process state only by recording the exporter
constructor call it makes, and its result does not depend on that state. -/
theorem newMetricExporter_effect (B : Backend) (ctx : Context) (endpoint : String)
    (insecure : Bool) :
    ∃ (res : Except GoError Exporter) (added : List Call),
      (∀ c ∈ added, Signal.constructs Signal.metrics c = true) ∧
      ∀ w : World, newMetricExporter B ctx endpoint insecure w =
        (res, { w with calls := w.calls ++ added }) := by
  unfold newMetricExporter
  cases B.urlParse endpoint with
  | error err =>
    exact ⟨_, [], by simp, fun w => Prod.ext rfl (by simp)⟩
  | ok u =>
    by_cases h1 : u.Scheme = "rpc"
    · simp only [h1, if_true]
      exact ⟨_, [_], by simp [Signal.constructs], fun w => rfl⟩
    · by_cases h2 : u.Scheme = "http" ∨ u.Scheme = "https"
      · simp only [h1, h2, if_true, if_false]
        exact ⟨_, [_], by simp [Signal.constructs], fun w => rfl⟩
      · simp only [h1, h2, if_false]
        exact ⟨_, [], by simp, fun w => Prod.ext rfl (by simp)⟩

/-- Go `NewMetricsProvider` changes the process state only by recording the
resource and exporter constructor calls it makes, and its result does not depend
on that state. -/
theorem NewMetricsProvider_effect (B : Backend) (env : Env) (ctx : Context) (config : Config) :
    ∃ (res : Except GoError MetricsProvider) (added : List Call),
      (∀ c ∈ added, Signal.constructs Signal.metrics c = true) ∧
      ∀ w : World, NewMetricsProvider B env ctx config w =
        (res, { w with calls := w.calls ++ added }) := by
  unfold NewMetricsProvider
  by_cases h : config.MetricsEndpoint env = ""
  · simp only [h, if_true]
    exact ⟨_, [], by simp, fun w => Prod.ext rfl (by simp)⟩
  · simp only [h, if_false]
    unfold NewResource
    cases hres : B.NewResource ctx config with
    | error err =>
      exact ⟨_, [Call.NewResource config], by simp [Signal.constructs], fun w => rfl⟩
    | ok res =>
      obtain ⟨r, added, hadded, hw⟩ :=
        newMetricExporter_effect B ctx (config.MetricsEndpoint env) config.Insecure
      cases r with
      | error err =>
        refine ⟨Except.error (GoError.wrap "failed to create OTLP metric exporter: " err),
          Call.NewResource config :: added, ?_, fun w => ?_⟩
        · intro c hc
          rcases List.mem_cons.mp hc with hc | hc
          · rw [hc]; rfl
          · exact hadded c hc
        · simp only [hw]
          simp [World.call]
      | ok exporter =>
        refine ⟨Except.ok { meterProvider := some (sdkmetricNewMeterProvider res exporter 10) },
          Call.NewResource config :: added, ?_, fun w => ?_⟩
        · intro c hc
          rcases List.mem_cons.mp hc with hc | hc
          · rw [hc]; rfl
          · exact hadded c hc
        · simp only [hw]
          simp [World.call]

/-- C4: when the provider of an enabled signal `sig` fails to construct with `e`
and every enabled signal before it (in the order traces, metrics, logs)
constructs, `SetupOTelSDK` returns `e` and a nil logs handle, the shutdown it
returns is the composed shutdown over exactly the `Shutdown` methods of the
providers constructed before `sig`, and no backend call it made belongs to the
construction of a signal after `sig`. -/
theorem SetupOTelSDK_stops_at_first_failure (B : Backend) (env : Env) (ctx : Context)
    (gitSHA dirty version : String) (w : World) (sig : Signal) (e : GoError)
    (henabled : sig.enabled (NewConfig env gitSHA dirty version) env = true)
    (hfails : sig.construct B env ctx (NewConfig env gitSHA dirty version) w = Except.error e)
    (hbefore : ∀ s : Signal, s.position < sig.position →
      s.enabled (NewConfig env gitSHA dirty version) env = true →
      ∃ f, s.construct B env ctx (NewConfig env gitSHA dirty version) w = Except.ok f) :
    (SetupOTelSDK B env ctx gitSHA dirty version w).1.err = some e ∧
    (SetupOTelSDK B env ctx gitSHA dirty version w).1.loggerProvider = none ∧
    (SetupOTelSDK B env ctx gitSHA dirty version w).1.shutdown =
      some (shutdown
        (Signal.constructedBefore B env ctx (NewConfig env gitSHA dirty version) w sig)) ∧
    ∃ added, (SetupOTelSDK B env ctx gitSHA dirty version w).2.calls = w.calls ++ added ∧
      ∀ s : Signal, sig.position < s.position → ∀ c ∈ added, s.constructs c = false := by
  unfold SetupOTelSDK
  generalize NewConfig env gitSHA dirty version = config at *
  obtain ⟨mres, madded, hmadded, hm⟩ := NewMetricsProvider_effect B env ctx config
  cases sig with
  | traces =>
    simp only [Signal.enabled] at henabled
    cases hnp : B.NewProvider env ctx config with
    | ok tp => simp [Signal.construct, hnp] at hfails
    | error err =>
      simp only [Signal.construct, hnp, Except.error.injEq] at hfails
      subst hfails
      simp only [SetupOTelSDK.traces, henabled, NewProvider, hnp, if_true]
      refine ⟨by trivial, by trivial, ?_, [Call.NewProvider config], ?_, ?_⟩
      · simp [Signal.constructedBefore, Signal.position]
      · simp [World.call, SetTextMapPropagator]
      · intro s hs c hc
        simp only [List.mem_singleton] at hc
        subst hc
        cases s <;> simp [Signal.position] at hs <;> rfl
  | metrics =>
    simp only [Signal.enabled] at henabled
    have hw1 : (NewMetricsProvider B env ctx config w).1 = mres := by rw [hm w]
    cases mres with
    | ok mp => simp [Signal.construct, hw1] at hfails
    | error err =>
      simp only [Signal.construct, hw1, Except.error.injEq] at hfails
      subst hfails
      have hlogs : ∀ c ∈ madded, Signal.constructs Signal.logs c = false := by
        intro c hc
        have := hmadded c hc
        cases c <;> simp_all [Signal.constructs]
      by_cases ht : config.TracesEnabled env = true
      · obtain ⟨f, hf⟩ := hbefore Signal.traces (by decide) ht
        cases hnp : B.NewProvider env ctx config with
        | error err' => simp [Signal.construct, hnp] at hf
        | ok tp =>
          simp only [SetupOTelSDK.traces, ht, NewProvider, hnp, SetupOTelSDK.metrics, henabled, hm,
            if_true]
          refine ⟨by trivial, by trivial, ?_, Call.NewProvider config :: madded, ?_, ?_⟩
          · simp [Signal.constructedBefore, Signal.position, Signal.enabled, ht, Signal.construct, hnp]
          · simp [World.call, SetTextMapPropagator, SetTracerProvider, loggerInfo]
          · intro s hs c hc
            cases s <;> simp [Signal.position] at hs
            rcases List.mem_cons.mp hc with hc | hc
            · rw [hc]; rfl
            · exact hlogs c hc
      · simp only [SetupOTelSDK.traces, ht, SetupOTelSDK.metrics, henabled, hm, if_true]
        refine ⟨by trivial, by trivial, ?_, madded, ?_, ?_⟩
        · simp [Signal.constructedBefore, Signal.position, Signal.enabled, ht]
        · simp [SetTextMapPropagator]
        · intro s hs c hc
          cases s <;> simp [Signal.position] at hs
          exact hlogs c hc
  | logs =>
    simp only [Signal.enabled] at henabled
    have hw1 : (NewMetricsProvider B env ctx config w).1 = mres := by rw [hm w]
    cases hlp : B.NewLogsProvider env ctx config with
    | ok lp => simp [Signal.construct, hlp] at hfails
    | error err =>
      simp only [Signal.construct, hlp, Except.error.injEq] at hfails
      subst hfails
      have hvac : ∀ (added : List Call) (s : Signal), Signal.logs.position < s.position →
          ∀ c ∈ added, s.constructs c = false := by
        intro added s hs
        cases s <;> simp [Signal.position] at hs
      by_cases ht : config.TracesEnabled env = true
      · obtain ⟨f, hf⟩ := hbefore Signal.traces (by decide) ht
        cases hnp : B.NewProvider env ctx config with
        | error err' => simp [Signal.construct, hnp] at hf
        | ok tp =>
          by_cases hme : config.MetricsEnabled env = true
          · obtain ⟨g, hg⟩ := hbefore Signal.metrics (by decide) hme
            cases mres with
            | error err' => simp [Signal.construct, hw1] at hg
            | ok mp =>
              simp only [SetupOTelSDK.traces, ht, NewProvider, hnp, SetupOTelSDK.metrics, hme, hm,
                SetupOTelSDK.logs, henabled, NewLogsProvider, hlp, if_true]
              refine ⟨by trivial, by trivial, ?_, (Call.NewProvider config :: (madded ++ [Call.NewLogsProvider config])), ?_, hvac _⟩
              · simp [Signal.constructedBefore, Signal.position, Signal.enabled, ht, hme,
                  Signal.construct, hnp, hw1]
              · simp [World.call, SetTextMapPropagator, SetTracerProvider, SetMeterProvider,
                  loggerInfo]
          · simp only [SetupOTelSDK.traces, ht, NewProvider, hnp, SetupOTelSDK.metrics, hme,
              SetupOTelSDK.logs, henabled, NewLogsProvider, hlp, if_true]
            refine ⟨by trivial, by trivial, ?_, [Call.NewProvider config, Call.NewLogsProvider config], ?_, hvac _⟩
            · simp [Signal.constructedBefore, Signal.position, Signal.enabled, ht, hme,
                Signal.construct, hnp]
            · simp [World.call, SetTextMapPropagator, SetTracerProvider, loggerInfo]
      · by_cases hme : config.MetricsEnabled env = true
        · obtain ⟨g, hg⟩ := hbefore Signal.metrics (by decide) hme
          cases mres with
          | error err' => simp [Signal.construct, hw1] at hg
          | ok mp =>
            simp only [SetupOTelSDK.traces, ht, SetupOTelSDK.metrics, hme, hm,
              SetupOTelSDK.logs, henabled, NewLogsProvider, hlp, if_true]
            refine ⟨by trivial, by trivial, ?_, (madded ++ [Call.NewLogsProvider config]), ?_, hvac _⟩
            · simp [Signal.constructedBefore, Signal.position, Signal.enabled, ht, hme,
                Signal.construct, hw1]
            · simp [World.call, SetTextMapPropagator, SetMeterProvider, loggerInfo]
        · simp only [SetupOTelSDK.traces, ht, SetupOTelSDK.metrics, hme,
            SetupOTelSDK.logs, henabled, NewLogsProvider, hlp, if_true]
          refine ⟨by trivial, by trivial, ?_, [Call.NewLogsProvider config], ?_, hvac _⟩
          · simp [Signal.constructedBefore, Signal.position, Signal.enabled, ht, hme]
          · simp [World.call, SetTextMapPropagator]

/-- C4 with traces enabled over HTTP and the metrics endpoint `ftp://invalid:4318`:
the metrics provider fails on the scheme, the error comes back with a nil logs
handle, and the returned shutdown is the one over the trace provider alone. -/
theorem SetupOTelSDK_stops_at_first_failure_witness :
    Signal.metrics.enabled (NewConfig ftpMetricsEnv "abc123" "false" "v1.0.0") ftpMetricsEnv = true ∧
    (SetupOTelSDK sampleBackend ftpMetricsEnv background "abc123" "false" "v1.0.0"
      World.initial).1.err = some ftpSchemeError ∧
    (SetupOTelSDK sampleBackend ftpMetricsEnv background "abc123" "false" "v1.0.0"
      World.initial).1.loggerProvider = none ∧
    (SetupOTelSDK sampleBackend ftpMetricsEnv background "abc123" "false" "v1.0.0"
      World.initial).1.shutdown =
        some (shutdown (Signal.constructedBefore sampleBackend ftpMetricsEnv background
          (NewConfig ftpMetricsEnv "abc123" "false" "v1.0.0") World.initial Signal.metrics)) := by
  have henabled : Signal.metrics.enabled (NewConfig ftpMetricsEnv "abc123" "false" "v1.0.0")
      ftpMetricsEnv = true := by
    simp [Signal.enabled, Config.MetricsEnabled, Config.MetricsEndpoint, GetString, ftpMetricsEnv]
  have h := SetupOTelSDK_stops_at_first_failure sampleBackend ftpMetricsEnv background
    "abc123" "false" "v1.0.0" World.initial Signal.metrics ftpSchemeError henabled
    (by
      simp [Signal.construct, NewMetricsProvider, Config.MetricsEndpoint, GetString, ftpMetricsEnv,
        NewResource, sampleBackend, newMetricExporter, ftpSchemeError])
    (by
      intro s hs _
      cases s <;> simp [Signal.position] at hs
      exact ⟨_, by simp [Signal.construct, sampleBackend]; rfl⟩)
  exact ⟨henabled, h.1, h.2.1, h.2.2.1⟩

/-- C8: when none of the telemetry environment variables is set, `SetupOTelSDK`,
for every build SHA, dirty flag and version, returns a non-nil shutdown function,
a nil logs handle and a nil error, makes no backend call (no provider is
constructed), and the returned shutdown, whenever invoked, returns nil and
leaves the process state as it is. -/
theorem SetupOTelSDK_disabled (B : Backend) (env : Env) (ctx : Context)
    (gitSHA dirty version : String) (w : World)
    (hunset : ∀ key ∈ telemetryVariables, env key = none) :
    (∃ f, (SetupOTelSDK B env ctx gitSHA dirty version w).1.shutdown = some f ∧
      ∀ (ctx' : Context) (w' : World), f ctx' w' = (none, w')) ∧
    (SetupOTelSDK B env ctx gitSHA dirty version w).1.loggerProvider = none ∧
    (SetupOTelSDK B env ctx gitSHA dirty version w).1.err = none ∧
    (SetupOTelSDK B env ctx gitSHA dirty version w).2.calls = w.calls := by
  have h0 : env "OTEL_EXPORTER_OTLP_ENDPOINT" = none := hunset _ (by simp [telemetryVariables])
  have h1 : env "OTEL_EXPORTER_OTLP_TRACES_ENDPOINT" = none :=
    hunset _ (by simp [telemetryVariables])
  have h2 : env "OTEL_EXPORTER_OTLP_METRICS_ENDPOINT" = none :=
    hunset _ (by simp [telemetryVariables])
  have h3 : env "OTEL_EXPORTER_OTLP_LOGS_ENDPOINT" = none :=
    hunset _ (by simp [telemetryVariables])
  have hbase : (NewConfig env gitSHA dirty version).Endpoint = "" := by
    simp [NewConfig, GetString, h0]
  have ht : (NewConfig env gitSHA dirty version).TracesEnabled env = false := by
    simp [Config.TracesEnabled, Config.TracesEndpoint, GetString, h1, hbase]
  have hm : (NewConfig env gitSHA dirty version).MetricsEnabled env = false := by
    simp [Config.MetricsEnabled, Config.MetricsEndpoint, GetString, h2, hbase]
  have hl : (NewConfig env gitSHA dirty version).LogsEnabled env = false := by
    simp [Config.LogsEnabled, Config.LogsEndpoint, GetString, h3, hbase]
  have hres : SetupOTelSDK B env ctx gitSHA dirty version w =
      ({ shutdown := some (shutdown []), loggerProvider := none, err := none },
        SetTextMapPropagator (NewCompositeTextMapPropagator
          [TextMapPropagator.TraceContext, TextMapPropagator.Baggage]) w) := by
    simp [SetupOTelSDK, SetupOTelSDK.traces, SetupOTelSDK.metrics, SetupOTelSDK.logs, ht, hm, hl]
  rw [hres]
  exact ⟨⟨shutdown [], rfl, fun _ _ => rfl⟩, rfl, rfl, rfl⟩

/-- C8 at the cleared environment and the arguments of `TestSetupOTelSDK_Disabled`. -/
theorem SetupOTelSDK_disabled_witness :
    (∀ key ∈ telemetryVariables, emptyEnv key = none) ∧
    (∃ f, (SetupOTelSDK sampleBackend emptyEnv background "" "" "v1.0.0" World.initial).1.shutdown =
        some f ∧ ∀ (ctx' : Context) (w' : World), f ctx' w' = (none, w')) ∧
    (SetupOTelSDK sampleBackend emptyEnv background "" "" "v1.0.0" World.initial).1.loggerProvider =
      none ∧
    (SetupOTelSDK sampleBackend emptyEnv background "" "" "v1.0.0" World.initial).1.err = none ∧
    (SetupOTelSDK sampleBackend emptyEnv background "" "" "v1.0.0" World.initial).2.calls = [] :=
  ⟨fun _ _ => rfl,
   SetupOTelSDK_disabled sampleBackend emptyEnv background "" "" "v1.0.0" World.initial
    (fun _ _ => rfl)⟩

/-! ## Logging handler chain -/

/-- A clone of a record is a record with the same contents. -/
theorem Record_Clone_eq (r : Record) : r.Clone = r := rfl

/-- The journal after `MultiHandler.Handle` over journalled handlers: one entry
per handler, in order, each with the record. -/
theorem MultiHandler_loop_journal {σ : Type} (ctx : Context) (r : Record)
    (handlers : List (Handler σ)) :
    ∀ (i : Nat) (s : σ) (log : List (Nat × Record)),
      ((Handler.journalledFrom i handlers).foldl (fun s h => (h.Handle ctx r.Clone s).2)
        (s, log)).2 = log ++ (List.range' i handlers.length).map fun j => (j, r) := by
  induction handlers with
  | nil => intro i s log; simp [Handler.journalledFrom]
  | cons h rest ih =>
    intro i s log
    simp only [Handler.journalledFrom, List.foldl_cons, Handler.journalled]
    rw [ih]
    simp [List.range'_succ, Record_Clone_eq]

/-- With a failing sink before a succeeding one, the succeeding sink has every
record of a sequence, in order. -/
theorem failing_then_succeeding_keeps_all (ctx : Context) (e : GoError) (rs : List Record) :
    ∀ s : List Record,
      rs.foldl
        (fun s r => (MultiHandler.Handle (NewMultiHandler [failingSink e, succeedingSink]) ctx r s).2)
        s = s ++ rs := by
  induction rs with
  | nil => intro s; simp
  | cons r rest ih =>
    intro s
    simp only [List.foldl_cons]
    rw [ih]
    simp [MultiHandler.Handle, NewMultiHandler, failingSink, succeedingSink, Record_Clone_eq]

/-- C5: for every list of wrapped handlers, every context and every record,
`MultiHandler.Handle` returns nil and hands a copy of the record to every
wrapped handler once, in order, whatever the handlers return: the state it
leaves is the one left by running every handler on the record, and when each
handler journals what it is given the journal is `(0, r), ..., (n-1, r)`. With a
sink that always fails and one that always succeeds, in either order, the
succeeding sink holds the record afterwards, and over a sequence of records it
holds them all. -/
theorem MultiHandler_Handle_delivers_to_all {σ : Type} (handlers : List (Handler σ))
    (ctx : Context) (r : Record) (s : σ) :
    (MultiHandler.Handle (NewMultiHandler handlers) ctx r s).1 = none ∧
    (MultiHandler.Handle (NewMultiHandler handlers) ctx r s).2 =
      handlers.foldl (fun s h => (h.Handle ctx r s).2) s ∧
    (MultiHandler.Handle (NewMultiHandler (Handler.journalledFrom 0 handlers)) ctx r (s, [])).2.2 =
      (List.range handlers.length).map (fun i => (i, r)) ∧
    (∀ (e : GoError) (kept : List Record),
      MultiHandler.Handle (NewMultiHandler [failingSink e, succeedingSink]) ctx r kept =
        (none, kept ++ [r]) ∧
      MultiHandler.Handle (NewMultiHandler [succeedingSink, failingSink e]) ctx r kept =
        (none, kept ++ [r])) ∧
    (∀ (e : GoError) (rs : List Record),
      rs.foldl
        (fun kept r =>
          (MultiHandler.Handle (NewMultiHandler [failingSink e, succeedingSink]) ctx r kept).2)
        [] = rs) := by
  refine ⟨rfl, rfl, ?_, ?_, ?_⟩
  · have h := MultiHandler_loop_journal ctx r handlers 0 s []
    simp only [List.nil_append] at h
    rw [List.range_eq_range']
    exact h
  · intro e kept
    exact ⟨rfl, rfl⟩
  · intro e rs
    simpa using failing_then_succeeding_keeps_all ctx e rs []

/-- The loop over `front` for one attribute that is not an empty group: it goes
to `front` when there is room and is left for `back` otherwise. -/
theorem fillFront_single (room : Nat) (a : Attr) (ha : a.Value.isEmptyGroup = false) :
    fillFront room [a] = if room = 0 then ([], [a]) else ([a], []) := by
  cases room with
  | zero => rfl
  | succ k =>
    cases k with
    | zero => simp [fillFront, ha]
    | succ j => simp [fillFront, ha]

/-- On a record value none of whose slots is written, `AddAttrs` of one attribute
that is not an empty group appends that attribute and nothing else, and leaves a
value none of whose slots is written. -/
theorem AddAttrs_single_unwritten (grow : Nat → Nat) (v : RecordValue) (a : Attr)
    (ha : a.Value.isEmptyGroup = false) (hv : ∀ x ∈ v.spare, x = none) :
    (v.AddAttrs grow [a]).value.record = { v.record with attrs := v.record.attrs ++ [a] } ∧
    (∀ x ∈ (v.AddAttrs grow [a]).value.spare, x = none) := by
  unfold RecordValue.AddAttrs
  rw [fillFront_single _ a ha]
  cases hsp : v.spare with
  | nil =>
    by_cases hroom : 5 - v.record.attrs.length = 0
    · simp [hroom, ha]
    · simp [hroom]
  | cons x xs =>
    have hx : x = none := hv x (by rw [hsp]; exact List.mem_cons_self x xs)
    have hxs : ∀ y ∈ xs, y = none := fun y hy => hv y (by rw [hsp]; exact List.mem_cons_of_mem x hy)
    subst hx
    by_cases hroom : 5 - v.record.attrs.length = 0
    · simp [hroom, ha]
      exact hxs
    · simp [hroom]
      exact hxs

/-- On a record value none of whose slots is written, which is what a fresh record
and a clone are, `TracingHandler.Handle` gives the wrapped handler the record
with `trace_id` and `span_id` appended when the context carries a recording span
with valid identifiers; with no recording span it gives the record as it is and
writes nothing, whatever the slots hold. In both cases its result is the wrapped
handler's. -/
theorem TracingHandler_Handle_on_unwritten_slots {σ : Type} (grow : Nat → Nat)
    (h : TracingHandler σ) (ctx : Context) (record : RecordValue) (s : σ) :
    ((∀ x ∈ record.spare, x = none) → ∀ span : Span, ctx.span = some span →
      span.recording = true → span.spanContext.traceID.IsValid = true →
      span.spanContext.spanID.IsValid = true →
      (h.Handle grow ctx record s).result =
        h.handler.Handle ctx
          { record.record with attrs := record.record.attrs ++
              [{ Key := "trace_id", Value := Value.KindString span.spanContext.traceID.String },
               { Key := "span_id", Value := Value.KindString span.spanContext.spanID.String }] } s) ∧
    ((∀ span : Span, ctx.span = some span → span.recording = false) →
      (h.Handle grow ctx record s).result = h.handler.Handle ctx record.record s ∧
      (h.Handle grow ctx record s).argument = record) := by
  refine ⟨?_, ?_⟩
  · intro hspare span hspan hrec htid hsid
    obtain ⟨h1, h1s⟩ := AddAttrs_single_unwritten grow record
      (slogString "trace_id" span.spanContext.traceID.String) rfl hspare
    obtain ⟨h2, _⟩ := AddAttrs_single_unwritten grow
      (record.AddAttrs grow [slogString "trace_id" span.spanContext.traceID.String]).value
      (slogString "span_id" span.spanContext.spanID.String) rfl h1s
    simp only [TracingHandler.Handle, SpanFromContext, hspan, Span.IsRecording, hrec,
      Span.SpanContext, SpanContext.HasTraceID, htid, SpanContext.HasSpanID, hsid, if_true,
      Added.AddAttrs, SpanContext.TraceID, SpanContext.SpanID]
    rw [h2, h1]
    simp [slogString]
  · intro hnone
    have hrec : (SpanFromContext ctx).IsRecording = false := by
      unfold SpanFromContext
      cases hspan : ctx.span with
      | none => rfl
      | some span => exact hnone span hspan
    simp [TracingHandler.Handle, hrec]

/-- On a clone of a record with one attribute, under the recording span with the
identifiers `0af7651916cd43dd8448eb211c80319c` and `b7ad6b7169203331`, the sink
behind the handler ends up holding the record with the two attributes; under
the background context it holds the record as it is. -/
theorem TracingHandler_Handle_on_clone_example (grow : Nat → Nat) :
    ((NewTracingHandler succeedingSink).Handle grow spanContextOf
      { record := sampleRecord.Clone, spare := [] } []).result =
      (none, [{ sampleRecord with attrs := sampleRecord.attrs ++
        [sampleTraceAttr, sampleSpanAttr] }]) ∧
    ((NewTracingHandler succeedingSink).Handle grow background
      { record := sampleRecord.Clone, spare := [] } []).result = (none, [sampleRecord]) := by
  have h := TracingHandler_Handle_on_unwritten_slots grow (NewTracingHandler succeedingSink)
  have htid : sampleSpan.spanContext.traceID.String = "0af7651916cd43dd8448eb211c80319c" := by
    decide
  have hsid : sampleSpan.spanContext.spanID.String = "b7ad6b7169203331" := by decide
  refine ⟨?_, ?_⟩
  · rw [(h spanContextOf { record := sampleRecord.Clone, spare := [] } []).1
      (by intro x hx; cases hx) sampleSpan rfl rfl (by decide) (by decide), htid, hsid]
    rfl
  · rw [((h background { record := sampleRecord.Clone, spare := [] } []).2
      (by intro span hspan; cases hspan)).1]
    rfl

/-- C6, the code at the failing input: a record with eight attributes whose slice
`back` has one unwritten slot of capacity left is handled twice under a
recording span. The first `Handle` gives the wrapped handler the record with
`trace_id` and `span_id` appended, and leaves `trace_id` written in the slot of
the caller's record; the second `Handle` of that same record gives the wrapped
handler the record with `!BUG`, `trace_id` and `span_id` appended. -/
theorem TracingHandler_Handle_twice_delivers_bug_attr (grow : Nat → Nat) :
    ((NewTracingHandler succeedingSink).Handle grow spanContextOf eightAttrValue []).result =
      (none, [{ eightAttrRecord with attrs := eightAttrRecord.attrs ++
        [sampleTraceAttr, sampleSpanAttr] }]) ∧
    ((NewTracingHandler succeedingSink).Handle grow spanContextOf eightAttrValue []).argument =
      { record := eightAttrRecord, spare := [some sampleTraceAttr] } ∧
    ((NewTracingHandler succeedingSink).Handle grow spanContextOf
      ((NewTracingHandler succeedingSink).Handle grow spanContextOf eightAttrValue []).argument
      []).result =
      (none, [{ eightAttrRecord with attrs := eightAttrRecord.attrs ++
        [bugAttr, sampleTraceAttr, sampleSpanAttr] }]) := by
  have htid : sampleTraceID.String = "0af7651916cd43dd8448eb211c80319c" := by decide
  have hsid : sampleSpanID.String = "b7ad6b7169203331" := by decide
  have hfirst : ((NewTracingHandler succeedingSink).Handle grow spanContextOf eightAttrValue
      []).argument = { record := eightAttrRecord, spare := [some sampleTraceAttr] } := by
    simp [TracingHandler.Handle, SpanFromContext, spanContextOf, sampleSpan, Span.IsRecording,
      Span.SpanContext, SpanContext.HasTraceID, SpanContext.HasSpanID, SpanContext.TraceID,
      SpanContext.SpanID, Added.AddAttrs, RecordValue.AddAttrs, fillFront, eightAttrValue,
      eightAttrRecord, slogString, Value.isEmptyGroup, htid, hsid, sampleTraceAttr,
      show sampleTraceID.IsValid = true by decide, show sampleSpanID.IsValid = true by decide]
  refine ⟨?_, hfirst, ?_⟩
  · simp [TracingHandler.Handle, SpanFromContext, spanContextOf, sampleSpan, Span.IsRecording,
      Span.SpanContext, SpanContext.HasTraceID, SpanContext.HasSpanID, SpanContext.TraceID,
      SpanContext.SpanID, Added.AddAttrs, RecordValue.AddAttrs, fillFront, eightAttrValue,
      eightAttrRecord, slogString, Value.isEmptyGroup, htid, hsid, sampleTraceAttr,
      sampleSpanAttr, NewTracingHandler, succeedingSink,
      show sampleTraceID.IsValid = true by decide, show sampleSpanID.IsValid = true by decide]
  · rw [hfirst]
    cases hg : grow 5 <;>
    simp [TracingHandler.Handle, SpanFromContext, spanContextOf, sampleSpan, Span.IsRecording,
      Span.SpanContext, SpanContext.HasTraceID, SpanContext.HasSpanID, SpanContext.TraceID,
      SpanContext.SpanID, Added.AddAttrs, RecordValue.AddAttrs, fillFront,
      eightAttrRecord, slogString, Value.isEmptyGroup, htid, hsid, sampleTraceAttr,
      sampleSpanAttr, bugAttr, NewTracingHandler, succeedingSink, hg, List.replicate,
      show sampleTraceID.IsValid = true by decide, show sampleSpanID.IsValid = true by decide]

end Otel

/-! ## Tracing HTTP middleware -/

namespace Broker

/-- The status code held by the wrapped writer after a handler's calls is the code
of the last `WriteHeader` among them, and the code it held before when there is
none. -/
theorem ServeHTTP_statusCode (calls : List WriterCall) :
    ∀ w : statusResponseWriter,
      (calls.foldl statusResponseWriter.apply w).statusCode =
        ((calls.filterMap fun c =>
          match c with
          | WriterCall.WriteHeader code => some code
          | WriterCall.Write _ => none).getLast?).getD w.statusCode := by
  induction calls with
  | nil => intro w; rfl
  | cons c rest ih =>
    intro w
    rw [List.foldl_cons, ih]
    cases c with
    | WriteHeader code =>
      simp only [List.filterMap_cons, statusResponseWriter.apply, statusResponseWriter.WriteHeader]
      cases hrest : (rest.filterMap fun c =>
          match c with
          | WriterCall.WriteHeader code => some code
          | WriterCall.Write _ => none) with
      | nil => simp
      | cons a l => rw [List.getLast?_eq_getLast (a :: l) (List.cons_ne_nil a l)]; rfl
    | Write data =>
      simp [statusResponseWriter.apply, statusResponseWriter.Write]

/-- C7: for every wrapped handler that returns normally, `TracingMiddleware` sets
on the span the attribute `http.status_code` to the code of the last
`WriteHeader` the handler made, or to 200 when it made none, and to no other
code; it sets the span status to error, with the status text of that code, if
and only if that code is at least 400, and sets no other status; and it ends the
span last. -/
theorem TracingMiddleware_records_final_status (StatusText : Int → String) (next : HttpHandler)
    (w : List WriterCall) (r : Request) (hreturns : next.panics r = false) :
    (TracingMiddleware StatusText next w r).panicked = false ∧
    SpanOp.SetAttributes [("http.status_code", AttrValue.IntValue (lastStatus (next.calls r)))] ∈
      (TracingMiddleware StatusText next w r).span ∧
    (∀ code, SpanOp.SetAttributes [("http.status_code", AttrValue.IntValue code)] ∈
      (TracingMiddleware StatusText next w r).span → code = lastStatus (next.calls r)) ∧
    (SpanOp.SetStatus Code.Error (StatusText (lastStatus (next.calls r))) ∈
      (TracingMiddleware StatusText next w r).span ↔ 400 ≤ lastStatus (next.calls r)) ∧
    (∀ code description, SpanOp.SetStatus code description ∈
      (TracingMiddleware StatusText next w r).span →
        code = Code.Error ∧ description = StatusText (lastStatus (next.calls r)) ∧
        400 ≤ lastStatus (next.calls r)) ∧
    (TracingMiddleware StatusText next w r).span.getLast? = some SpanOp.End := by
  have hcode : (next.ServeHTTP { ResponseWriter := w, statusCode := 200 } r).statusCode =
      lastStatus (next.calls r) := by
    unfold HttpHandler.ServeHTTP lastStatus
    rw [ServeHTTP_statusCode]
  unfold TracingMiddleware
  simp only [hreturns, hcode]
  by_cases hs : r.Header "mcp-session-id" = "" <;>
    by_cases h4 : lastStatus (next.calls r) ≥ 400 <;>
    simp [hs, h4]

/-- C7 on a handler that writes 404 and on one that writes no status: the first
gives the attribute 404 and the error status `Not Found`, the second the
attribute 200 and no status. -/
theorem TracingMiddleware_records_final_status_witness :
    notFoundHandler.panics sampleRequest = false ∧
    silentHandler.panics sampleRequest = false ∧
    lastStatus (notFoundHandler.calls sampleRequest) = 404 ∧
    lastStatus (silentHandler.calls sampleRequest) = 200 ∧
    SpanOp.SetAttributes [("http.status_code", AttrValue.IntValue 404)] ∈
      (TracingMiddleware sampleStatusText notFoundHandler [] sampleRequest).span ∧
    SpanOp.SetStatus Code.Error "Not Found" ∈
      (TracingMiddleware sampleStatusText notFoundHandler [] sampleRequest).span ∧
    SpanOp.SetAttributes [("http.status_code", AttrValue.IntValue 200)] ∈
      (TracingMiddleware sampleStatusText silentHandler [] sampleRequest).span ∧
    (∀ code description, SpanOp.SetStatus code description ∉
      (TracingMiddleware sampleStatusText silentHandler [] sampleRequest).span) := by
  have h404 := TracingMiddleware_records_final_status sampleStatusText notFoundHandler []
    sampleRequest rfl
  have h200 := TracingMiddleware_records_final_status sampleStatusText silentHandler []
    sampleRequest rfl
  have e404 : lastStatus (notFoundHandler.calls sampleRequest) = 404 := by decide
  have e200 : lastStatus (silentHandler.calls sampleRequest) = 200 := by decide
  refine ⟨rfl, rfl, e404, e200, ?_, ?_, ?_, ?_⟩
  · have := h404.2.1
    rw [e404] at this
    exact this
  · have := h404.2.2.2.1.mpr (by rw [e404]; decide)
    rw [e404] at this
    exact this
  · have := h200.2.1
    rw [e200] at this
    exact this
  · intro code description hmem
    have := (h200.2.2.2.2.1 code description hmem).2.2
    rw [e200] at this
    exact absurd this (by decide)

end Broker

/-! ## Orchestrator: what is installed and registered -/

namespace Otel

/-- The logs block of `SetupOTelSDK` writes none of the process-wide handles, and
the shutdown it returns is over the functions it was given, followed by those it
registered. -/
theorem SetupOTelSDK_logs_frame (B : Backend) (env : Env) (ctx : Context) (config : Config)
    (fns : List (ShutdownFn World)) (w : World) :
    (SetupOTelSDK.logs B env ctx config fns w).2.propagator = w.propagator ∧
    (SetupOTelSDK.logs B env ctx config fns w).2.tracerProvider = w.tracerProvider ∧
    (SetupOTelSDK.logs B env ctx config fns w).2.meterProvider = w.meterProvider ∧
    (SetupOTelSDK.logs B env ctx config fns w).2.loggerProvider = w.loggerProvider ∧
    ∃ registered, (SetupOTelSDK.logs B env ctx config fns w).1.shutdown =
      some (shutdown (fns ++ registered)) := by
  unfold SetupOTelSDK.logs NewLogsProvider
  by_cases hl : config.LogsEnabled env = true
  · simp only [hl, if_true]
    cases B.NewLogsProvider env ctx config with
    | error err => exact ⟨rfl, rfl, rfl, rfl, [], by simp⟩
    | ok lp => exact ⟨rfl, rfl, rfl, rfl, [LogsProvider.Shutdown B lp], rfl⟩
  · simp only [hl]
    exact ⟨rfl, rfl, rfl, rfl, [], by simp⟩

/-- The metrics block of `SetupOTelSDK` and what follows it write neither the
propagator, nor the tracer provider, nor a global logger provider, and the
shutdown returned is over the functions given, followed by those registered. -/
theorem SetupOTelSDK_metrics_frame (B : Backend) (env : Env) (ctx : Context) (config : Config)
    (fns : List (ShutdownFn World)) (w : World) :
    (SetupOTelSDK.metrics B env ctx config fns w).2.propagator = w.propagator ∧
    (SetupOTelSDK.metrics B env ctx config fns w).2.tracerProvider = w.tracerProvider ∧
    (SetupOTelSDK.metrics B env ctx config fns w).2.loggerProvider = w.loggerProvider ∧
    ∃ registered, (SetupOTelSDK.metrics B env ctx config fns w).1.shutdown =
      some (shutdown (fns ++ registered)) := by
  obtain ⟨mres, madded, _, hm⟩ := NewMetricsProvider_effect B env ctx config
  unfold SetupOTelSDK.metrics
  by_cases hme : config.MetricsEnabled env = true
  · simp only [hme, if_true, hm]
    cases mres with
    | error err => exact ⟨rfl, rfl, rfl, [], by simp⟩
    | ok mp =>
      obtain ⟨h1, h2, _, h4, registered, h5⟩ := SetupOTelSDK_logs_frame B env ctx config
        (fns ++ [MetricsProvider.Shutdown B mp])
        (loggerInfo "OpenTelemetry metrics enabled" (config.MetricsEndpoint env)
          (SetMeterProvider mp.MeterProvider { w with calls := w.calls ++ madded }))
      refine ⟨?_, ?_, ?_, MetricsProvider.Shutdown B mp :: registered, ?_⟩
      · simp only [h1]; rfl
      · simp only [h2]; rfl
      · simp only [h4]; rfl
      · simp only [h5]; simp
  · simp only [hme]
    obtain ⟨h1, h2, _, h4, registered, h5⟩ := SetupOTelSDK_logs_frame B env ctx config fns w
    exact ⟨h1, h2, h4, registered, h5⟩

/-- The traces block of `SetupOTelSDK` and what follows it write neither the
propagator nor a global logger provider. -/
theorem SetupOTelSDK_traces_frame (B : Backend) (env : Env) (ctx : Context) (config : Config)
    (fns : List (ShutdownFn World)) (w : World) :
    (SetupOTelSDK.traces B env ctx config fns w).2.propagator = w.propagator ∧
    (SetupOTelSDK.traces B env ctx config fns w).2.loggerProvider = w.loggerProvider := by
  unfold SetupOTelSDK.traces NewProvider
  by_cases ht : config.TracesEnabled env = true
  · simp only [ht, if_true]
    cases B.NewProvider env ctx config with
    | error err => exact ⟨rfl, rfl⟩
    | ok tp =>
      obtain ⟨h1, _, h3, _⟩ := SetupOTelSDK_metrics_frame B env ctx config
        (fns ++ [Provider.Shutdown B tp])
        (loggerInfo "OpenTelemetry tracing enabled" (config.TracesEndpoint env)
          (SetTracerProvider (B.TracerProvider tp) (w.call (Call.NewProvider config))))
      refine ⟨?_, ?_⟩
      · simp only [h1]; rfl
      · simp only [h3]; rfl
  · simp only [ht]
    obtain ⟨h1, _, h3, _⟩ := SetupOTelSDK_metrics_frame B env ctx config fns w
    exact ⟨h1, h3⟩

/-- C11: for every environment, backend and starting state, after `SetupOTelSDK`
returns, whether no signal is enabled, all providers construct, or a
construction fails, the process-wide propagator is the composite of the W3C
trace-context codec followed by the baggage codec; no signal needs to be
enabled for it. -/
theorem SetupOTelSDK_installs_propagator (B : Backend) (env : Env) (ctx : Context)
    (gitSHA dirty version : String) (w : World) :
    (SetupOTelSDK B env ctx gitSHA dirty version w).2.propagator =
      some (TextMapPropagator.composite
        [TextMapPropagator.TraceContext, TextMapPropagator.Baggage]) := by
  unfold SetupOTelSDK
  simp only
  rw [(SetupOTelSDK_traces_frame B env ctx _ [] _).1]
  rfl

end Otel

/-! ## Map carrier -/

namespace McpRouter

/-- The loop of `Keys` collects the keys of the entries, in their order. -/
theorem Keys_loop (entries : List (Sigma fun _ : String => String)) :
    ∀ keys : List String,
      entries.foldl (fun keys entry => keys ++ [entry.1]) keys = keys ++ entries.map Sigma.fst := by
  induction entries with
  | nil => intro keys; simp
  | cons entry rest ih =>
    intro keys
    rw [List.foldl_cons, ih]
    simp

/-- On a made map `Keys` returns the keys of the map. -/
theorem Keys_some (m : AList fun _ : String => String) :
    mapCarrier.Keys (some m) = m.keys := by
  show m.entries.foldl (fun keys entry => keys ++ [entry.1]) [] = m.keys
  rw [Keys_loop]
  rfl

/-- C12: for the map carrier, `Get` of a key that is absent returns the empty
string; once `Set(k, v)` has returned, `Get(k)` returns `v`, `Get` of every other
key returns what it returned before, and `Keys` contains `k`; `Keys` returns
exactly the keys present in the map, each once; and on a made map, the one used
for outbound injection, `Set` always returns. -/
theorem mapCarrier_Get_Set_Keys (c : mapCarrier) (k v : String) :
    (c.present k = false → c.Get k = "") ∧
    (∀ c' : mapCarrier, c.Set k v = some c' →
      c'.Get k = v ∧ (∀ k', k' ≠ k → c'.Get k' = c.Get k') ∧ k ∈ c'.Keys ∧
      (∀ k', k' ∈ c'.Keys ↔ k' = k ∨ k' ∈ c.Keys)) ∧
    (∀ k', k' ∈ c.Keys ↔ c.present k' = true) ∧
    c.Keys.Nodup ∧
    (c ≠ none → ∃ c', c.Set k v = some c') := by
  cases c with
  | none =>
    refine ⟨fun _ => rfl, ?_, ?_, ?_, ?_⟩
    · intro c' h
      simp [mapCarrier.Set] at h
    · intro k'
      simp [mapCarrier.Keys, mapCarrier.present]
    · simp [mapCarrier.Keys]
    · intro h
      exact absurd rfl h
  | some m =>
    refine ⟨?_, ?_, ?_, ?_, ?_⟩
    · intro h
      simp only [mapCarrier.present] at h
      cases hl : m.lookup k with
      | none => simp [mapCarrier.Get, hl]
      | some x => rw [hl] at h; cases h
    · intro c' h
      simp only [mapCarrier.Set, Option.some.injEq] at h
      subst h
      refine ⟨?_, ?_, ?_, ?_⟩
      · simp [mapCarrier.Get, AList.lookup_insert]
      · intro k' hk
        simp [mapCarrier.Get, AList.lookup_insert_ne hk]
      · rw [Keys_some, ← AList.mem_keys, AList.mem_insert]
        exact Or.inl rfl
      · intro k'
        rw [Keys_some, Keys_some, ← AList.mem_keys, ← AList.mem_keys, AList.mem_insert]
    · intro k'
      rw [Keys_some, ← AList.mem_keys]
      simp only [mapCarrier.present]
      exact AList.lookup_isSome.symm
    · rw [Keys_some]
      exact m.keys_nodup
    · intro _
      exact ⟨_, rfl⟩

/-- C12 on the map made by `injectTraceContext` and the `traceparent` entry of
`TestSetupOTelSDK_PropagatorSet`: the key is absent before `Set`, `Set` returns,
and afterwards `Get` gives the value and `Keys` is that one key. -/
theorem mapCarrier_Get_Set_Keys_witness :
    mapCarrier.make.present "traceparent" = false ∧
    mapCarrier.make.Get "traceparent" = "" ∧
    mapCarrier.make.Set "traceparent" "00-0af7651916cd43dd8448eb211c80319c-b7ad6b7169203331-01" =
      some sampleCarrier ∧
    sampleCarrier.Get "traceparent" = "00-0af7651916cd43dd8448eb211c80319c-b7ad6b7169203331-01" ∧
    "traceparent" ∈ sampleCarrier.Keys ∧
    sampleCarrier.Keys.Nodup := by
  have h := mapCarrier_Get_Set_Keys mapCarrier.make "traceparent"
    "00-0af7651916cd43dd8448eb211c80319c-b7ad6b7169203331-01"
  have hset : mapCarrier.make.Set "traceparent"
      "00-0af7651916cd43dd8448eb211c80319c-b7ad6b7169203331-01" = some sampleCarrier := rfl
  have hafter := h.2.1 sampleCarrier hset
  exact ⟨rfl, h.1 rfl, hset, hafter.1, hafter.2.2.1,
    (mapCarrier_Get_Set_Keys sampleCarrier "traceparent" "").2.2.2.1⟩

end McpRouter

/-! ## Orchestrator: registration and global handles -/

namespace Otel

/-- A metrics provider returned by `NewMetricsProvider` holds a meter provider. -/
theorem NewMetricsProvider_ok_holds (B : Backend) (env : Env) (ctx : Context) (config : Config)
    (w : World) (mp : MetricsProvider)
    (h : (NewMetricsProvider B env ctx config w).1 = Except.ok mp) :
    ∃ sdk, mp.MeterProvider = some sdk := by
  unfold NewMetricsProvider at h
  by_cases he : config.MetricsEndpoint env = ""
  · simp [he] at h
  · simp only [he, if_false, NewResource] at h
    cases hres : B.NewResource ctx config with
    | error err => simp [hres] at h
    | ok res =>
      obtain ⟨r, added, _, hw⟩ :=
        newMetricExporter_effect B ctx (config.MetricsEndpoint env) config.Insecure
      simp only [hres, hw] at h
      cases r with
      | error err => simp at h
      | ok exporter =>
        simp only [Except.ok.injEq] at h
        exact ⟨sdkmetricNewMeterProvider res exporter 10, by rw [← h]; rfl⟩

/-- When the trace provider constructs, the traces block registers its `Shutdown`,
installs its tracer provider and goes on to the metrics block. -/
theorem SetupOTelSDK_traces_ok (B : Backend) (env : Env) (ctx : Context) (config : Config)
    (fns : List (ShutdownFn World)) (w : World) (tp : Provider)
    (henabled : config.TracesEnabled env = true)
    (hnp : B.NewProvider env ctx config = Except.ok tp) :
    SetupOTelSDK.traces B env ctx config fns w =
      SetupOTelSDK.metrics B env ctx config (fns ++ [Provider.Shutdown B tp])
        (loggerInfo "OpenTelemetry tracing enabled" (config.TracesEndpoint env)
          (SetTracerProvider (B.TracerProvider tp) (w.call (Call.NewProvider config)))) := by
  simp [SetupOTelSDK.traces, henabled, NewProvider, hnp]

/-- When the metrics provider constructs, the metrics block registers its
`Shutdown`, installs its meter provider and goes on to the logs block. -/
theorem SetupOTelSDK_metrics_ok (B : Backend) (env : Env) (ctx : Context) (config : Config)
    (fns : List (ShutdownFn World)) (w : World) (mp : MetricsProvider)
    (henabled : config.MetricsEnabled env = true)
    (hmp : (NewMetricsProvider B env ctx config w).1 = Except.ok mp) :
    SetupOTelSDK.metrics B env ctx config fns w =
      SetupOTelSDK.logs B env ctx config (fns ++ [MetricsProvider.Shutdown B mp])
        (loggerInfo "OpenTelemetry metrics enabled" (config.MetricsEndpoint env)
          (SetMeterProvider mp.MeterProvider (NewMetricsProvider B env ctx config w).2)) := by
  unfold SetupOTelSDK.metrics
  simp only [henabled, if_true]
  cases hrun : NewMetricsProvider B env ctx config w with
  | mk res w' =>
    rw [hrun] at hmp
    simp only at hmp
    subst hmp
    rfl

/-- When the logs provider constructs, the logs block registers its `Shutdown` and
returns its logger provider as the logs handle, with a nil error. -/
theorem SetupOTelSDK_logs_ok (B : Backend) (env : Env) (ctx : Context) (config : Config)
    (fns : List (ShutdownFn World)) (w : World) (lp : LogsProvider)
    (henabled : config.LogsEnabled env = true)
    (hlp : B.NewLogsProvider env ctx config = Except.ok lp) :
    SetupOTelSDK.logs B env ctx config fns w =
      ({ shutdown := some (shutdown (fns ++ [LogsProvider.Shutdown B lp])),
         loggerProvider := some (B.LoggerProvider lp), err := none },
       loggerInfo "OpenTelemetry logs enabled" (config.LogsEndpoint env)
         (w.call (Call.NewLogsProvider config))) := by
  simp [SetupOTelSDK.logs, henabled, NewLogsProvider, hlp]

/-- When traces are disabled or the trace provider constructs, the traces block
goes on to the metrics block with the functions it was given first. -/
theorem SetupOTelSDK_traces_passes (B : Backend) (env : Env) (ctx : Context) (config : Config)
    (fns : List (ShutdownFn World)) (w : World)
    (h : config.TracesEnabled env = true → ∃ tp, B.NewProvider env ctx config = Except.ok tp) :
    ∃ registered w', SetupOTelSDK.traces B env ctx config fns w =
      SetupOTelSDK.metrics B env ctx config (fns ++ registered) w' := by
  by_cases ht : config.TracesEnabled env = true
  · obtain ⟨tp, htp⟩ := h ht
    exact ⟨_, _, SetupOTelSDK_traces_ok B env ctx config fns w tp ht htp⟩
  · exact ⟨[], w, by simp [SetupOTelSDK.traces, ht]⟩

/-- When metrics are disabled or the metrics provider constructs, the metrics
block goes on to the logs block with the functions it was given first. -/
theorem SetupOTelSDK_metrics_passes (B : Backend) (env : Env) (ctx : Context) (config : Config)
    (fns : List (ShutdownFn World)) (w : World)
    (h : config.MetricsEnabled env = true →
      ∃ mp, (NewMetricsProvider B env ctx config w).1 = Except.ok mp) :
    ∃ registered w', SetupOTelSDK.metrics B env ctx config fns w =
      SetupOTelSDK.logs B env ctx config (fns ++ registered) w' := by
  by_cases hme : config.MetricsEnabled env = true
  · obtain ⟨mp, hmp⟩ := h hme
    exact ⟨_, _, SetupOTelSDK_metrics_ok B env ctx config fns w mp hme hmp⟩
  · exact ⟨[], w, by simp [SetupOTelSDK.metrics, hme]⟩

/-- The result of `NewMetricsProvider` is the same from every process state. -/
theorem NewMetricsProvider_result_fixed (B : Backend) (env : Env) (ctx : Context)
    (config : Config) (w w' : World) :
    (NewMetricsProvider B env ctx config w).1 = (NewMetricsProvider B env ctx config w').1 := by
  obtain ⟨mres, madded, _, hm⟩ := NewMetricsProvider_effect B env ctx config
  rw [hm w, hm w']

/-- `NewMetricsProvider` writes none of the process-wide handles. -/
theorem NewMetricsProvider_frame (B : Backend) (env : Env) (ctx : Context)
    (config : Config) (w : World) :
    (NewMetricsProvider B env ctx config w).2.meterProvider = w.meterProvider := by
  obtain ⟨mres, madded, _, hm⟩ := NewMetricsProvider_effect B env ctx config
  rw [hm w]

/-- A successful construction of the trace provider, in terms of `NewProvider`. -/
theorem construct_traces_ok (B : Backend) (env : Env) (ctx : Context) (config : Config)
    (w : World) (f : ShutdownFn World)
    (h : Signal.construct B env ctx config w Signal.traces = Except.ok f) :
    ∃ tp, B.NewProvider env ctx config = Except.ok tp ∧ f = Provider.Shutdown B tp := by
  unfold Signal.construct at h
  cases hnp : B.NewProvider env ctx config with
  | error err => simp [hnp] at h
  | ok tp =>
    simp only [hnp, Except.ok.injEq] at h
    exact ⟨tp, rfl, h.symm⟩

/-- A successful construction of the metrics provider, in terms of
`NewMetricsProvider`. -/
theorem construct_metrics_ok (B : Backend) (env : Env) (ctx : Context) (config : Config)
    (w : World) (f : ShutdownFn World)
    (h : Signal.construct B env ctx config w Signal.metrics = Except.ok f) :
    ∃ mp, (NewMetricsProvider B env ctx config w).1 = Except.ok mp ∧
      f = MetricsProvider.Shutdown B mp := by
  unfold Signal.construct at h
  cases hmp : (NewMetricsProvider B env ctx config w).1 with
  | error err => simp [hmp] at h
  | ok mp =>
    simp only [hmp, Except.ok.injEq] at h
    exact ⟨mp, rfl, h.symm⟩

/-- A successful construction of the logs provider, in terms of `NewLogsProvider`. -/
theorem construct_logs_ok (B : Backend) (env : Env) (ctx : Context) (config : Config)
    (w : World) (f : ShutdownFn World)
    (h : Signal.construct B env ctx config w Signal.logs = Except.ok f) :
    ∃ lp, B.NewLogsProvider env ctx config = Except.ok lp ∧ f = LogsProvider.Shutdown B lp := by
  unfold Signal.construct at h
  cases hlp : B.NewLogsProvider env ctx config with
  | error err => simp [hlp] at h
  | ok lp =>
    simp only [hlp, Except.ok.injEq] at h
    exact ⟨lp, rfl, h.symm⟩

/-- C13, amended: whenever a signal is enabled and its provider is constructed
successfully (every enabled signal before it having constructed), the composed
shutdown `SetupOTelSDK` returns is over a list holding that provider's
`Shutdown`; for traces the provider's tracer provider is installed as the global
tracer provider, for metrics its meter provider, which is not nil, as the global
meter provider; for logs the provider's logger provider is returned as the logs
handle with a nil error, and the global logger provider is left as it was. -/
theorem SetupOTelSDK_registers_and_installs (B : Backend) (env : Env) (ctx : Context)
    (gitSHA dirty version : String) (w : World) (sig : Signal) (f : ShutdownFn World)
    (henabled : sig.enabled (NewConfig env gitSHA dirty version) env = true)
    (hconstructs : sig.construct B env ctx (NewConfig env gitSHA dirty version) w = Except.ok f)
    (hbefore : ∀ s : Signal, s.position < sig.position →
      s.enabled (NewConfig env gitSHA dirty version) env = true →
      ∃ g, s.construct B env ctx (NewConfig env gitSHA dirty version) w = Except.ok g) :
    (∃ fns, (SetupOTelSDK B env ctx gitSHA dirty version w).1.shutdown = some (shutdown fns) ∧
      f ∈ fns) ∧
    (sig = Signal.traces → ∀ tp,
      B.NewProvider env ctx (NewConfig env gitSHA dirty version) = Except.ok tp →
      (SetupOTelSDK B env ctx gitSHA dirty version w).2.tracerProvider =
        some (B.TracerProvider tp)) ∧
    (sig = Signal.metrics → ∀ mp,
      (NewMetricsProvider B env ctx (NewConfig env gitSHA dirty version) w).1 = Except.ok mp →
      (SetupOTelSDK B env ctx gitSHA dirty version w).2.meterProvider = mp.MeterProvider ∧
      ∃ sdk, mp.MeterProvider = some sdk) ∧
    (sig = Signal.logs → ∀ lp,
      B.NewLogsProvider env ctx (NewConfig env gitSHA dirty version) = Except.ok lp →
      (SetupOTelSDK B env ctx gitSHA dirty version w).1.loggerProvider =
        some (B.LoggerProvider lp) ∧
      (SetupOTelSDK B env ctx gitSHA dirty version w).1.err = none ∧
      (SetupOTelSDK B env ctx gitSHA dirty version w).2.loggerProvider = w.loggerProvider) := by
  unfold SetupOTelSDK
  simp only
  generalize NewConfig env gitSHA dirty version = config at *
  generalize hw0 : SetTextMapPropagator (NewCompositeTextMapPropagator
    [TextMapPropagator.TraceContext, TextMapPropagator.Baggage]) w = w0
  have hglobal : (SetupOTelSDK.traces B env ctx config [] w0).2.loggerProvider =
      w.loggerProvider := by
    rw [(SetupOTelSDK_traces_frame B env ctx config [] w0).2, ← hw0]
    rfl
  cases sig with
  | traces =>
    obtain ⟨tp, hnp, hf⟩ := construct_traces_ok B env ctx config w f hconstructs
    rw [SetupOTelSDK_traces_ok B env ctx config [] w0 tp henabled hnp]
    obtain ⟨_, h2, _, registered, h5⟩ := SetupOTelSDK_metrics_frame B env ctx config
      ([] ++ [Provider.Shutdown B tp])
      (loggerInfo "OpenTelemetry tracing enabled" (config.TracesEndpoint env)
        (SetTracerProvider (B.TracerProvider tp) (w0.call (Call.NewProvider config))))
    refine ⟨⟨_, h5, by simp [hf]⟩, ?_, (fun h => by cases h), (fun h => by cases h)⟩
    intro _ tp' htp'
    rw [hnp] at htp'
    simp only [Except.ok.injEq] at htp'
    subst htp'
    rw [h2]
    rfl
  | metrics =>
    obtain ⟨mp, hmp, hf⟩ := construct_metrics_ok B env ctx config w f hconstructs
    obtain ⟨registeredT, wT, hT⟩ := SetupOTelSDK_traces_passes B env ctx config [] w0
      (fun ht => by
        obtain ⟨g, hg⟩ := hbefore Signal.traces (by decide) ht
        obtain ⟨tp, htp, _⟩ := construct_traces_ok B env ctx config w g hg
        exact ⟨tp, htp⟩)
    have hmpT : (NewMetricsProvider B env ctx config wT).1 = Except.ok mp := by
      rw [NewMetricsProvider_result_fixed B env ctx config wT w]
      exact hmp
    rw [hT, SetupOTelSDK_metrics_ok B env ctx config ([] ++ registeredT) wT mp henabled hmpT]
    obtain ⟨_, _, h3, _, registered, h5⟩ := SetupOTelSDK_logs_frame B env ctx config
      ([] ++ registeredT ++ [MetricsProvider.Shutdown B mp])
      (loggerInfo "OpenTelemetry metrics enabled" (config.MetricsEndpoint env)
        (SetMeterProvider mp.MeterProvider (NewMetricsProvider B env ctx config wT).2))
    refine ⟨⟨_, h5, by simp [hf]⟩, (fun h => by cases h), ?_, (fun h => by cases h)⟩
    intro _ mp' hmp'
    rw [hmp] at hmp'
    simp only [Except.ok.injEq] at hmp'
    subst hmp'
    refine ⟨?_, NewMetricsProvider_ok_holds B env ctx config w mp hmp⟩
    rw [h3]
    rfl
  | logs =>
    obtain ⟨lp, hlp, hf⟩ := construct_logs_ok B env ctx config w f hconstructs
    obtain ⟨registeredT, wT, hT⟩ := SetupOTelSDK_traces_passes B env ctx config [] w0
      (fun ht => by
        obtain ⟨g, hg⟩ := hbefore Signal.traces (by decide) ht
        obtain ⟨tp, htp, _⟩ := construct_traces_ok B env ctx config w g hg
        exact ⟨tp, htp⟩)
    obtain ⟨registeredM, wM, hM⟩ := SetupOTelSDK_metrics_passes B env ctx config
      ([] ++ registeredT) wT
      (fun hme => by
        obtain ⟨g, hg⟩ := hbefore Signal.metrics (by decide) hme
        obtain ⟨mp, hmp, _⟩ := construct_metrics_ok B env ctx config w g hg
        exact ⟨mp, by rw [NewMetricsProvider_result_fixed B env ctx config wT w]; exact hmp⟩)
    rw [hT, hM, SetupOTelSDK_logs_ok B env ctx config _ wM lp henabled hlp] at hglobal ⊢
    refine ⟨⟨_, rfl, by simp [hf]⟩, (fun h => by cases h), (fun h => by cases h), ?_⟩
    intro _ lp' hlp'
    rw [hlp] at hlp'
    simp only [Except.ok.injEq] at hlp'
    subst hlp'
    exact ⟨rfl, rfl, hglobal⟩

/-- C13, amended, in the environment of `TestSetupOTelSDK_MetricsEnabled`: the
metrics provider constructs, its `Shutdown` is in the list of the returned
shutdown, and its meter provider is the global meter provider. -/
theorem SetupOTelSDK_registers_and_installs_witness :
    Signal.metrics.enabled (NewConfig metricsOnlyEnv "" "" "v1.0.0") metricsOnlyEnv = true ∧
    Signal.metrics.construct sampleBackend metricsOnlyEnv background
      (NewConfig metricsOnlyEnv "" "" "v1.0.0") World.initial =
        Except.ok (MetricsProvider.Shutdown sampleBackend sampleMetricsProvider) ∧
    (∃ fns, (SetupOTelSDK sampleBackend metricsOnlyEnv background "" "" "v1.0.0"
        World.initial).1.shutdown = some (shutdown fns) ∧
      MetricsProvider.Shutdown sampleBackend sampleMetricsProvider ∈ fns) ∧
    (SetupOTelSDK sampleBackend metricsOnlyEnv background "" "" "v1.0.0"
      World.initial).2.meterProvider = sampleMetricsProvider.MeterProvider := by
  have henabled : Signal.metrics.enabled (NewConfig metricsOnlyEnv "" "" "v1.0.0")
      metricsOnlyEnv = true := by
    simp [Signal.enabled, Config.MetricsEnabled, Config.MetricsEndpoint, GetString, metricsOnlyEnv]
  have hmp : (NewMetricsProvider sampleBackend metricsOnlyEnv background
      (NewConfig metricsOnlyEnv "" "" "v1.0.0") World.initial).1 = Except.ok sampleMetricsProvider := by
    simp [NewMetricsProvider, Config.MetricsEndpoint, GetString, metricsOnlyEnv, NewResource,
      sampleBackend, newMetricExporter, otlpmetrichttpNew, sdkmetricNewMeterProvider,
      sampleMetricsProvider]
  have hconstructs : Signal.metrics.construct sampleBackend metricsOnlyEnv background
      (NewConfig metricsOnlyEnv "" "" "v1.0.0") World.initial =
        Except.ok (MetricsProvider.Shutdown sampleBackend sampleMetricsProvider) := by
    simp only [Signal.construct, hmp]
  have h := SetupOTelSDK_registers_and_installs sampleBackend metricsOnlyEnv background
    "" "" "v1.0.0" World.initial Signal.metrics
    (MetricsProvider.Shutdown sampleBackend sampleMetricsProvider) henabled hconstructs
    (by
      intro s hs hen
      cases s <;> simp [Signal.position] at hs
      simp [Signal.enabled, Config.TracesEnabled, Config.TracesEndpoint, GetString,
        metricsOnlyEnv, NewConfig] at hen)
  exact ⟨henabled, hconstructs, h.1, (h.2.2.1 rfl sampleMetricsProvider hmp).1⟩

/-- C13 as stated fails for logs: in the environment of
`TestSetupOTelSDK_LogsEnabled` logs are enabled, the logs provider constructs and
`SetupOTelSDK` returns its logger provider as the logs handle with a nil error,
yet the global logger provider stays unset: the provider is not installed as a
process-wide handle. -/
theorem SetupOTelSDK_logs_provider_not_installed_globally :
    Signal.logs.enabled (NewConfig logsOnlyEnv "" "" "v1.0.0") logsOnlyEnv = true ∧
    sampleBackend.NewLogsProvider logsOnlyEnv background (NewConfig logsOnlyEnv "" "" "v1.0.0") =
      Except.ok { id := 3 } ∧
    (SetupOTelSDK sampleBackend logsOnlyEnv background "" "" "v1.0.0" World.initial).1.err = none ∧
    (SetupOTelSDK sampleBackend logsOnlyEnv background "" "" "v1.0.0"
      World.initial).1.loggerProvider = some (sampleBackend.LoggerProvider { id := 3 }) ∧
    (SetupOTelSDK sampleBackend logsOnlyEnv background "" "" "v1.0.0"
      World.initial).2.loggerProvider = none ∧
    (SetupOTelSDK sampleBackend logsOnlyEnv background "" "" "v1.0.0"
      World.initial).2.loggerProvider ≠ some (sampleBackend.LoggerProvider { id := 3 }) := by
  have henabled : Signal.logs.enabled (NewConfig logsOnlyEnv "" "" "v1.0.0") logsOnlyEnv = true := by
    simp [Signal.enabled, Config.LogsEnabled, Config.LogsEndpoint, GetString, logsOnlyEnv]
  have ht : (NewConfig logsOnlyEnv "" "" "v1.0.0").TracesEnabled logsOnlyEnv = false := by
    simp [Config.TracesEnabled, Config.TracesEndpoint, GetString, logsOnlyEnv, NewConfig]
  have hm : (NewConfig logsOnlyEnv "" "" "v1.0.0").MetricsEnabled logsOnlyEnv = false := by
    simp [Config.MetricsEnabled, Config.MetricsEndpoint, GetString, logsOnlyEnv, NewConfig]
  have hrun : SetupOTelSDK sampleBackend logsOnlyEnv background "" "" "v1.0.0" World.initial =
      SetupOTelSDK.logs sampleBackend logsOnlyEnv background (NewConfig logsOnlyEnv "" "" "v1.0.0") []
        (SetTextMapPropagator (NewCompositeTextMapPropagator
          [TextMapPropagator.TraceContext, TextMapPropagator.Baggage]) World.initial) := by
    simp [SetupOTelSDK, SetupOTelSDK.traces, SetupOTelSDK.metrics, ht, hm]
  have hnone : (SetupOTelSDK sampleBackend logsOnlyEnv background "" "" "v1.0.0"
      World.initial).2.loggerProvider = none := by
    rw [hrun, SetupOTelSDK_logs_ok sampleBackend logsOnlyEnv background _ [] _ { id := 3 }
      henabled rfl]
    rfl
  refine ⟨henabled, rfl, ?_, ?_, hnone, ?_⟩
  · rw [hrun, SetupOTelSDK_logs_ok sampleBackend logsOnlyEnv background _ [] _ { id := 3 }
      henabled rfl]
  · rw [hrun, SetupOTelSDK_logs_ok sampleBackend logsOnlyEnv background _ [] _ { id := 3 }
      henabled rfl]
  · rw [hnone]
    intro h
    cases h

end Otel
